/-
Verification of the Band Hopper geometry-and-scoring core.

This file gives a shallow embedding of the computational core of the
Band Hopper repository (a Star Citizen navigation aid) and proves, or
refutes, a list of specification claims about it.

Modelling conventions:
* JavaScript numbers are modelled by real numbers where the code does
  genuine geometry (square roots, trigonometry), and by rational numbers
  where the code only adds, subtracts, multiplies, divides and compares
  (band classification, exit widths, yield scoring).  Overflow and
  rounding of IEEE doubles are not modelled.
* JavaScript Array.prototype.sort with a numeric comparator is a stable
  sort; it is modelled by List.insertionSort, which is stable.
* Object key lookup with a default (the pattern obj[key] or 0) is
  modelled by an association-list lookup returning 0 when absent.
* Functions returning null model that value as Option.none.
-/
import Mathlib

namespace BandHopper

open Real

/-! ## Coordinate model (src/types/polarCoordinates.ts)

Polar and cartesian coordinates over the reals.  The source stores r in
gigameters and theta in degrees. -/

/-- 2D polar coordinate: radial distance r (Gm) and angle theta (degrees). -/
structure PolarCoordinate where
  r : ℝ
  theta : ℝ

/-- 2D cartesian coordinate. -/
structure CartesianCoordinate where
  x : ℝ
  y : ℝ

/-- degreesToRadians from the source: degrees times pi over 180. -/
noncomputable def degreesToRadians (degrees : ℝ) : ℝ :=
  degrees * (Real.pi / 180)

/-- polarToCartesian from the source. -/
noncomputable def polarToCartesian (polar : PolarCoordinate) : CartesianCoordinate :=
  let thetaRad := degreesToRadians polar.theta
  { x := polar.r * Real.cos thetaRad
    y := polar.r * Real.sin thetaRad }

/-- Model of the JavaScript primitive Math.atan2 y x: the argument of the
complex number x + y i, with values in the half-open interval from -pi
(exclusive) to pi (inclusive), and atan2 0 0 = 0.  This matches the IEEE
behaviour of Math.atan2 on all non-NaN inputs (signed zeros aside, which
the real numbers do not distinguish). -/
noncomputable def atan2 (y x : ℝ) : ℝ :=
  Complex.arg ⟨x, y⟩

/-- cartesianToPolar from the source: r by the Euclidean norm, theta by
atan2 converted to degrees. -/
noncomputable def cartesianToPolar (cart : CartesianCoordinate) : PolarCoordinate :=
  { r := Real.sqrt (cart.x * cart.x + cart.y * cart.y)
    theta := atan2 cart.y cart.x * (180 / Real.pi) }

/-- calculateDistance from the source: Euclidean distance of the cartesian
images of two polar coordinates. -/
noncomputable def calculateDistance (a b : PolarCoordinate) : ℝ :=
  let aCart := polarToCartesian a
  let bCart := polarToCartesian b
  let dx := bCart.x - aCart.x
  let dy := bCart.y - aCart.y
  Real.sqrt (dx * dx + dy * dy)

/-! ## Route interpolation (src/types/polarCoordinates.ts, lines 112-182)

interpolatePositionOnRoute finds where the line from start to destination
crosses the circle of radius targetRadius around the origin.

The source has no guard for start and destination mapping to the same
cartesian point.  In that case length = 0 and the source computes
ux = 0/0 = NaN and uy = 0/0 = NaN.  Every subsequent comparison involving
NaN is false in IEEE arithmetic, so the source skips the negative
discriminant branch, fails the three root-sign tests (t1 and t2 are NaN)
and falls through to the final fallback, which scales the destination
vector (computed from the untainted destCart) to targetRadius.  The reals
have no NaN, so that fall-through is encoded here as an explicit branch
on length = 0; for length different from 0 the definition follows the
source line by line. -/
noncomputable def interpolatePositionOnRoute
    (start destination : PolarCoordinate) (targetRadius : ℝ) : PolarCoordinate :=
  let startCart := polarToCartesian start
  let destCart := polarToCartesian destination
  let dx := destCart.x - startCart.x
  let dy := destCart.y - startCart.y
  let length := Real.sqrt (dx * dx + dy * dy)
  if length = 0 then
    -- IEEE NaN fall-through of the unguarded source, see the comment above.
    let destR := Real.sqrt (destCart.x * destCart.x + destCart.y * destCart.y)
    let scale := targetRadius / destR
    cartesianToPolar { x := destCart.x * scale, y := destCart.y * scale }
  else
    let ux := dx / length
    let uy := dy / length
    let b := 2 * (startCart.x * ux + startCart.y * uy)
    let c := startCart.x * startCart.x + startCart.y * startCart.y -
      targetRadius * targetRadius
    let discriminant := b * b - 4 * 1 * c
    if discriminant < 0 then
      let midX := (startCart.x + destCart.x) / 2
      let midY := (startCart.y + destCart.y) / 2
      let midR := Real.sqrt (midX * midX + midY * midY)
      let scale := targetRadius / midR
      cartesianToPolar { x := midX * scale, y := midY * scale }
    else
      let t1 := (-b - Real.sqrt discriminant) / (2 * 1)
      let t2 := (-b + Real.sqrt discriminant) / (2 * 1)
      let tSel : Option ℝ :=
        if 0 ≤ t1 ∧ 0 ≤ t2 then some (min t1 t2)
        else if 0 ≤ t1 then some t1
        else if 0 ≤ t2 then some t2
        else none
      match tSel with
      | some t => cartesianToPolar { x := startCart.x + t * ux, y := startCart.y + t * uy }
      | none =>
        let destR := Real.sqrt (destCart.x * destCart.x + destCart.y * destCart.y)
        let scale := targetRadius / destR
        cartesianToPolar { x := destCart.x * scale, y := destCart.y * scale }

/-! ## Aaron Halo bands (src/types/bands.ts)

Distances are in km from the Stanton marker; densities are on a 0 to 1
scale.  Rationals suffice: the band code only compares and subtracts.  The
decimal density literals of the source (0.01, 0.24, and so on) are written
as reduced fractions through the raw rational constructor, which the
kernel can evaluate, unlike the scientific-notation literal. -/

/-- One Aaron Halo band. -/
structure AaronHaloBand where
  id : ℕ
  name : String
  innerDistance : ℚ
  outerDistance : ℚ
  peakDensityDistance : ℚ
  relativeDensity : ℚ
  miningOpportunity : ℚ
  description : Option String
deriving DecidableEq

def band1 : AaronHaloBand :=
  { id := 1, name := "Band 1", innerDistance := 19673000, outerDistance := 19715000
    peakDensityDistance := 19702000, relativeDensity := Rat.mk' 1 100, miningOpportunity := 0
    description := some "Inner edge of the Aaron Halo" }

def band2 : AaronHaloBand :=
  { id := 2, name := "Band 2", innerDistance := 19815000, outerDistance := 19914000
    peakDensityDistance := 19887000, relativeDensity := Rat.mk' 6 25, miningOpportunity := Rat.mk' 13 100
    description := some "Moderate density" }

def band3 : AaronHaloBand :=
  { id := 3, name := "Band 3", innerDistance := 19914000, outerDistance := 19995000
    peakDensityDistance := 19995000, relativeDensity := Rat.mk' 7 20, miningOpportunity := Rat.mk' 4 25
    description := some "Good density, often grouped with Band 2" }

def band4 : AaronHaloBand :=
  { id := 4, name := "Band 4", innerDistance := 20071000, outerDistance := 20179000
    peakDensityDistance := 20188000, relativeDensity := Rat.mk' 23 100, miningOpportunity := Rat.mk' 7 50
    description := some "Lower density transition zone" }

def band5 : AaronHaloBand :=
  { id := 5, name := "Band 5", innerDistance := 20230000, outerDistance := 20407000
    peakDensityDistance := 20320000, relativeDensity := 1, miningOpportunity := 1
    description := some "Peak density and best overall mining opportunity" }

def band6 : AaronHaloBand :=
  { id := 6, name := "Band 6", innerDistance := 20407000, outerDistance := 20540000
    peakDensityDistance := 20471000, relativeDensity := Rat.mk' 33 100, miningOpportunity := Rat.mk' 1 4
    description := some "Good density, often grouped with Band 5" }

def band7 : AaronHaloBand :=
  { id := 7, name := "Band 7", innerDistance := 20540000, outerDistance := 20881000
    peakDensityDistance := 20962000, relativeDensity := Rat.mk' 9 25, miningOpportunity := Rat.mk' 7 10
    description := some "Widest band with excellent mining density" }

def band8 : AaronHaloBand :=
  { id := 8, name := "Band 8", innerDistance := 20881000, outerDistance := 21046000
    peakDensityDistance := 20968000, relativeDensity := Rat.mk' 13 50, miningOpportunity := Rat.mk' 6 25
    description := some "Moderate density" }

def band9 : AaronHaloBand :=
  { id := 9, name := "Band 9", innerDistance := 21046000, outerDistance := 21132000
    peakDensityDistance := 21062000, relativeDensity := Rat.mk' 1 4, miningOpportunity := Rat.mk' 3 25
    description := some "Lower density" }

def band10 : AaronHaloBand :=
  { id := 10, name := "Band 10", innerDistance := 21132000, outerDistance := 21298000
    peakDensityDistance := 21207000, relativeDensity := Rat.mk' 33 100, miningOpportunity := Rat.mk' 31 100
    description := some "Outer edge of the Aaron Halo" }

/-- The ten Aaron Halo bands, in source order. -/
def BANDS : List AaronHaloBand :=
  [band1, band2, band3, band4, band5, band6, band7, band8, band9, band10]

/-- Aaron Halo inner boundary constant from the source (km). -/
def HALO_INNER_EDGE : ℚ := 19673000

/-- Aaron Halo outer boundary constant from the source (km). -/
def HALO_OUTER_EDGE : ℚ := 21298000

/-- findBandByDistance from the source: first band whose closed interval
contains the distance, none otherwise. -/
def findBandByDistance (distanceToStanton : ℚ) : Option AaronHaloBand :=
  BANDS.find? fun band =>
    decide (band.innerDistance ≤ distanceToStanton) &&
    decide (distanceToStanton ≤ band.outerDistance)

/-- findClosestBand from the source: linear scan keeping the first band
with strictly smaller distance from its peak density, starting from the
first band. -/
def findClosestBand (distanceToStanton : ℚ) : AaronHaloBand :=
  BANDS.foldl
    (fun closestBand band =>
      if |distanceToStanton - band.peakDensityDistance| <
          |distanceToStanton - closestBand.peakDensityDistance| then band
      else closestBand)
    band1

/-- isInHalo from the source. -/
def isInHalo (distanceToStanton : ℚ) : Bool :=
  decide (HALO_INNER_EDGE ≤ distanceToStanton) &&
  decide (distanceToStanton ≤ HALO_OUTER_EDGE)

/-! ## Pre-calculated routes and exit widths (src/types/routes.ts)

Only the types and the exit-width calculator are needed here; the large
static route table is not referenced by any claim. -/

/-- One crossing of a band on a route, all distances in km. -/
structure BandExit where
  bandId : ℕ
  distanceFromStanton : ℚ
  distanceToDestination : ℚ
  distanceFromStart : ℚ
deriving DecidableEq

/-- A band exit annotated with its margin for error. -/
structure BandExitWithWidth extends BandExit where
  exitWidth : ℚ
  gapToPreviousBand : Option ℚ
  gapToNextBand : Option ℚ
deriving DecidableEq

/-- The stable ascending sort by band id performed at the top of
calculateExitWidths (the source copies the array and sorts it with the
comparator a.bandId - b.bandId). -/
def exitsSortedById (bandExits : List BandExit) : List BandExit :=
  List.insertionSort (fun a b => a.bandId ≤ b.bandId) bandExits

/-- calculateExitWidths from the source: sort by band id, then annotate
every entry with the absolute gaps (in distanceToDestination) to its
neighbours in sorted order and with the exit width: the minimum of the two
gaps when both exist, the single gap when only one exists, 0 otherwise.
The source indexes sorted[index - 1] and sorted[index + 1], where reading
past either end gives undefined; the index arithmetic is total on natural
numbers, so the read of the previous entry is guarded by index = 0. -/
def calculateExitWidths (bandExits : List BandExit) : List BandExitWithWidth :=
  let sorted := exitsSortedById bandExits
  sorted.enum.map fun ie =>
    let index := ie.1
    let ex := ie.2
    let prevExit : Option BandExit := if index = 0 then none else sorted.get? (index - 1)
    let nextExit : Option BandExit := sorted.get? (index + 1)
    let gapToPrevious : Option ℚ :=
      prevExit.map fun p => |ex.distanceToDestination - p.distanceToDestination|
    let gapToNext : Option ℚ :=
      nextExit.map fun n => |n.distanceToDestination - ex.distanceToDestination|
    let exitWidth : ℚ :=
      match gapToPrevious, gapToNext with
      | some a, some b => min a b
      | some a, none => a
      | none, some b => b
      | none, none => 0
    { toBandExit := ex
      exitWidth := exitWidth
      gapToPreviousBand := gapToPrevious
      gapToNextBand := gapToNext }

/-! ## Position analysis (src/utils/calculator.ts)

analyzePosition builds a human-readable description string with
formatDistance; string formatting is presentation, so the description is
modelled by an inductive value carrying the same branch and the same
numeric parameters the source interpolates into the string. -/

/-- Direction tag of a nearby band: closer to Stanton than the position, or
further out. -/
inductive NearbyDirection where
  | closer
  | further
deriving DecidableEq

/-- Which edge of a band a position is on, relative to the peak. -/
inductive EdgeDirection where
  | inner
  | outer
deriving DecidableEq

/-- One entry of the nearbyBands list of analyzePosition. -/
structure NearbyBand where
  band : AaronHaloBand
  distance : ℚ
  direction : NearbyDirection
deriving DecidableEq

/-- The branch structure of the positionDescription string built by
analyzePosition, with the numbers the source formats into it. -/
inductive PositionDescription where
  | insideHaloZone (distanceToHalo : ℚ)
  | outsideHaloZone (distanceFromHalo : ℚ)
  | atPeak (band : AaronHaloBand)
  | offPeak (band : AaronHaloBand) (distanceToPeak : ℚ) (edge : EdgeDirection)
  | betweenBands (closestBand : AaronHaloBand)
deriving DecidableEq

/-- Result record of analyzePosition. -/
structure PositionAnalysis where
  distanceFromStanton : ℚ
  isInHalo : Bool
  currentBand : Option AaronHaloBand
  closestBand : AaronHaloBand
  distanceToClosestBand : ℚ
  positionDescription : PositionDescription
  nearbyBands : List NearbyBand
deriving DecidableEq

/-- analyzePosition from the source.  nearbyBands maps every band to its
absolute peak distance and direction (closer when the position is beyond
the peak), keeps those within 500000 km and sorts ascending by distance
(stable). -/
def analyzePosition (distanceFromStanton : ℚ) : PositionAnalysis :=
  let inHalo := isInHalo distanceFromStanton
  let currentBand := findBandByDistance distanceFromStanton
  let closestBand := findClosestBand distanceFromStanton
  let distanceToClosestBand := |distanceFromStanton - closestBand.peakDensityDistance|
  let nearbyBands :=
    List.insertionSort (fun a b => a.distance ≤ b.distance)
      ((BANDS.map fun band =>
          let distanceToPeak := distanceFromStanton - band.peakDensityDistance
          { band := band
            distance := |distanceToPeak|
            direction :=
              if 0 < distanceToPeak then NearbyDirection.closer
              else NearbyDirection.further : NearbyBand }).filter
        fun item => decide (item.distance ≤ 500000))
  let positionDescription :=
    if inHalo = false then
      if distanceFromStanton < HALO_INNER_EDGE then
        PositionDescription.insideHaloZone (HALO_INNER_EDGE - distanceFromStanton)
      else
        PositionDescription.outsideHaloZone (distanceFromStanton - HALO_OUTER_EDGE)
    else
      match currentBand with
      | some band =>
        let distanceToPeak := |distanceFromStanton - band.peakDensityDistance|
        if distanceToPeak < 10000 then
          PositionDescription.atPeak band
        else
          PositionDescription.offPeak band distanceToPeak
            (if distanceFromStanton < band.peakDensityDistance then EdgeDirection.inner
             else EdgeDirection.outer)
      | none => PositionDescription.betweenBands closestBand
  { distanceFromStanton := distanceFromStanton
    isInHalo := inHalo
    currentBand := currentBand
    closestBand := closestBand
    distanceToClosestBand := distanceToClosestBand
    positionDescription := positionDescription
    nearbyBands := nearbyBands }

/-- The nearby-band list of analyzePosition before sorting, as built by the
source. -/
def nearbyBandsRaw (r : ℚ) : List NearbyBand :=
  (BANDS.map fun band =>
      ({ band := band
         distance := |r - band.peakDensityDistance|
         direction :=
           if 0 < r - band.peakDensityDistance then NearbyDirection.closer
           else NearbyDirection.further } : NearbyBand)).filter
    fun item => decide (item.distance ≤ 500000)

/-! ## Stanton locations (src/types/locations.ts) -/

/-- Location kind tags from the source. -/
inductive LocationType where
  | refinery
  | station
  | planet
  | moon
  | lagrange
  | city
deriving DecidableEq

/-- One Stanton system location. -/
structure StantonLocation where
  id : String
  name : String
  shortName : String
  type : LocationType
  distanceFromStanton : ℚ
  hasRefinery : Bool
  orbitalBody : Option String
  description : Option String
deriving DecidableEq

/-- The static location table from the source (Jump Point Gateway stations
are absent from it, as its header comment states). -/
def LOCATIONS : List StantonLocation :=
  [ { id := "arc-l1", name := "ARC-L1 Wide Forest Station", shortName := "ARC-L1"
      type := LocationType.refinery, distanceFromStanton := 29500000, hasRefinery := true
      orbitalBody := some "ArcCorp", description := some "Refinery station at ArcCorp L1" },
    { id := "arc-l2", name := "ARC-L2 Lively Pathway Station", shortName := "ARC-L2"
      type := LocationType.station, distanceFromStanton := 31000000, hasRefinery := false
      orbitalBody := some "ArcCorp", description := none },
    { id := "arc-l3", name := "ARC-L3 Modern Express Station", shortName := "ARC-L3"
      type := LocationType.station, distanceFromStanton := 27500000, hasRefinery := false
      orbitalBody := some "ArcCorp", description := none },
    { id := "arc-l4", name := "ARC-L4 Faint Glen Station", shortName := "ARC-L4"
      type := LocationType.station, distanceFromStanton := 28800000, hasRefinery := false
      orbitalBody := some "ArcCorp", description := none },
    { id := "arc-l5", name := "ARC-L5 Yellow Core Station", shortName := "ARC-L5"
      type := LocationType.station, distanceFromStanton := 28800000, hasRefinery := false
      orbitalBody := some "ArcCorp", description := none },
    { id := "cru-l1", name := "CRU-L1 Ambitious Dream Station", shortName := "CRU-L1"
      type := LocationType.refinery, distanceFromStanton := 16500000, hasRefinery := true
      orbitalBody := some "Crusader", description := some "Refinery station at Crusader L1" },
    { id := "cru-l4", name := "CRU-L4 Shallow Fields Station", shortName := "CRU-L4"
      type := LocationType.station, distanceFromStanton := 18200000, hasRefinery := false
      orbitalBody := some "Crusader", description := none },
    { id := "cru-l5", name := "CRU-L5 Beautiful Glen Station", shortName := "CRU-L5"
      type := LocationType.refinery, distanceFromStanton := 18200000, hasRefinery := true
      orbitalBody := some "Crusader", description := some "Refinery station at Crusader L5" },
    { id := "hur-l1", name := "HUR-L1 Green Glade Station", shortName := "HUR-L1"
      type := LocationType.refinery, distanceFromStanton := 11500000, hasRefinery := true
      orbitalBody := some "Hurston", description := some "Refinery station at Hurston L1" },
    { id := "hur-l2", name := "HUR-L2 Faithful Dream Station", shortName := "HUR-L2"
      type := LocationType.refinery, distanceFromStanton := 13000000, hasRefinery := true
      orbitalBody := some "Hurston", description := some "Refinery station at Hurston L2" },
    { id := "hur-l3", name := "HUR-L3 Thundering Express Station", shortName := "HUR-L3"
      type := LocationType.station, distanceFromStanton := 10000000, hasRefinery := false
      orbitalBody := some "Hurston", description := none },
    { id := "hur-l4", name := "HUR-L4 Melodic Fields Station", shortName := "HUR-L4"
      type := LocationType.station, distanceFromStanton := 12200000, hasRefinery := false
      orbitalBody := some "Hurston", description := none },
    { id := "hur-l5", name := "HUR-L5 High Course Station", shortName := "HUR-L5"
      type := LocationType.station, distanceFromStanton := 12200000, hasRefinery := false
      orbitalBody := some "Hurston", description := none },
    { id := "mic-l1", name := "MIC-L1 Shallow Frontier Station", shortName := "MIC-L1"
      type := LocationType.refinery, distanceFromStanton := 38500000, hasRefinery := true
      orbitalBody := some "microTech", description := some "Refinery station at microTech L1" },
    { id := "mic-l2", name := "MIC-L2 Long Forest Station", shortName := "MIC-L2"
      type := LocationType.station, distanceFromStanton := 41000000, hasRefinery := false
      orbitalBody := some "microTech", description := none },
    { id := "hurston", name := "Hurston", shortName := "Hurston"
      type := LocationType.planet, distanceFromStanton := 12850000, hasRefinery := false
      orbitalBody := none, description := some "Hurston Dynamics headquarters world" },
    { id := "crusader", name := "Crusader", shortName := "Crusader"
      type := LocationType.planet, distanceFromStanton := 18930000, hasRefinery := false
      orbitalBody := none, description := some "Gas giant, home of Orison" },
    { id := "arccorp", name := "ArcCorp", shortName := "ArcCorp"
      type := LocationType.planet, distanceFromStanton := 28460000, hasRefinery := false
      orbitalBody := none, description := some "Ecumenopolis, home of Area18" },
    { id := "microtech", name := "microTech", shortName := "microTech"
      type := LocationType.planet, distanceFromStanton := 38850000, hasRefinery := false
      orbitalBody := none, description := some "Ice world, home of New Babbage" } ]

/-- getLocationById from the source: first table entry with the id, none
otherwise. -/
def getLocationById (id : String) : Option StantonLocation :=
  LOCATIONS.find? fun loc => loc.id == id

/-- The polar coordinate table from src/types/polarCoordinates.ts, as an
association list (r in Gm, theta in degrees). -/
noncomputable def LOCATION_COORDINATES : List (String × PolarCoordinate) :=
  [ ("arccorp", { r := 28.91, theta := -50 }),
    ("arc-l1", { r := 26.02, theta := -50 }),
    ("arc-l2", { r := 31.81, theta := -50 }),
    ("arc-l3", { r := 28.92, theta := 150 }),
    ("arc-l4", { r := 28.91, theta := 9.99 }),
    ("arc-l5", { r := 28.92, theta := -110 }),
    ("crusader", { r := 19.14, theta := -172 }),
    ("cru-l1", { r := 17.23, theta := -172 }),
    ("cru-l3", { r := 19.14, theta := 8 }),
    ("cru-l4", { r := 19.14, theta := -112 }),
    ("cru-l5", { r := 19.14, theta := 127.98 }),
    ("hurston", { r := 12.85, theta := 0 }),
    ("hur-l1", { r := 11.56, theta := 0 }),
    ("hur-l2", { r := 14.13, theta := 0 }),
    ("hur-l4", { r := 12.84, theta := 59.98 }),
    ("hur-l5", { r := 12.85, theta := -60 }),
    ("microtech", { r := 43.44, theta := 58.86 }),
    ("mic-l1", { r := 39.09, theta := 58.86 }),
    ("mic-l2", { r := 47.79, theta := 58.86 }),
    ("mic-l5", { r := 43.45, theta := -1.13 }),
    ("pyro-gateway", { r := 28.3, theta := -83.25 }),
    ("terra-gateway", { r := 51.57, theta := -5.88 }),
    ("nyx-gateway", { r := 69.55, theta := 159.35 }) ]

/-- getLocationCoordinates from the source. -/
noncomputable def getLocationCoordinates (locationId : String) : Option PolarCoordinate :=
  (LOCATION_COORDINATES.find? fun p => p.1 == locationId).map Prod.snd

/-! ## Minable materials (src/types/materials.ts) -/

inductive MaterialRarity where
  | common
  | uncommon
  | rare
  | veryRare
deriving DecidableEq

inductive MaterialCategory where
  | ore
  | gem
  | gas
deriving DecidableEq

/-- One minable material; baseValue is aUEC per SCU. -/
structure MinableMaterial where
  id : String
  name : String
  category : MaterialCategory
  rarity : MaterialRarity
  baseValue : ℚ
  isQuantanium : Bool
  description : Option String
deriving DecidableEq

/-- The static material table from the source. -/
def MATERIALS : List MinableMaterial :=
  [ { id := "quantanium", name := "Quantanium", category := MaterialCategory.ore
      rarity := MaterialRarity.veryRare, baseValue := 94378, isQuantanium := true
      description := some "Highly volatile - must be refined quickly!" },
    { id := "riccite", name := "Riccite", category := MaterialCategory.ore
      rarity := MaterialRarity.veryRare, baseValue := 109957, isQuantanium := false
      description := none },
    { id := "savrilium", name := "Savrilium", category := MaterialCategory.ore
      rarity := MaterialRarity.veryRare, baseValue := 101208, isQuantanium := false
      description := none },
    { id := "stileron", name := "Stileron", category := MaterialCategory.ore
      rarity := MaterialRarity.veryRare, baseValue := 105473, isQuantanium := false
      description := none },
    { id := "bexalite", name := "Bexalite", category := MaterialCategory.ore
      rarity := MaterialRarity.rare, baseValue := 20440, isQuantanium := false
      description := some "Valuable rare ore" },
    { id := "lindinium", name := "Lindinium", category := MaterialCategory.ore
      rarity := MaterialRarity.rare, baseValue := 24292, isQuantanium := false
      description := none },
    { id := "taranite", name := "Taranite", category := MaterialCategory.ore
      rarity := MaterialRarity.rare, baseValue := 22417, isQuantanium := false
      description := none },
    { id := "agricium", name := "Agricium", category := MaterialCategory.ore
      rarity := MaterialRarity.uncommon, baseValue := 4664, isQuantanium := false
      description := none },
    { id := "beryl", name := "Beryl", category := MaterialCategory.gem
      rarity := MaterialRarity.uncommon, baseValue := 5644, isQuantanium := false
      description := none },
    { id := "borase", name := "Borase", category := MaterialCategory.ore
      rarity := MaterialRarity.uncommon, baseValue := 7871, isQuantanium := false
      description := none },
    { id := "gold", name := "Gold", category := MaterialCategory.ore
      rarity := MaterialRarity.uncommon, baseValue := 8376, isQuantanium := false
      description := none },
    { id := "hephaestanite", name := "Hephaestanite", category := MaterialCategory.ore
      rarity := MaterialRarity.uncommon, baseValue := 4465, isQuantanium := false
      description := none },
    { id := "laranite", name := "Laranite", category := MaterialCategory.ore
      rarity := MaterialRarity.uncommon, baseValue := 6078, isQuantanium := false
      description := none },
    { id := "aluminium", name := "Aluminium", category := MaterialCategory.ore
      rarity := MaterialRarity.common, baseValue := 1960, isQuantanium := false
      description := none },
    { id := "copper", name := "Copper", category := MaterialCategory.ore
      rarity := MaterialRarity.common, baseValue := 2041, isQuantanium := false
      description := none },
    { id := "corundum", name := "Corundum", category := MaterialCategory.gem
      rarity := MaterialRarity.common, baseValue := 2046, isQuantanium := false
      description := none },
    { id := "ice", name := "Ice", category := MaterialCategory.gas
      rarity := MaterialRarity.common, baseValue := 2910, isQuantanium := false
      description := none },
    { id := "iron", name := "Iron", category := MaterialCategory.ore
      rarity := MaterialRarity.common, baseValue := 2316, isQuantanium := false
      description := none },
    { id := "quartz", name := "Quartz", category := MaterialCategory.gem
      rarity := MaterialRarity.common, baseValue := 2189, isQuantanium := false
      description := none },
    { id := "silicon", name := "Silicon", category := MaterialCategory.ore
      rarity := MaterialRarity.common, baseValue := 1394, isQuantanium := false
      description := none },
    { id := "tin", name := "Tin", category := MaterialCategory.ore
      rarity := MaterialRarity.common, baseValue := 1871, isQuantanium := false
      description := none },
    { id := "titanium", name := "Titanium", category := MaterialCategory.ore
      rarity := MaterialRarity.common, baseValue := 2569, isQuantanium := false
      description := none },
    { id := "torite", name := "Torite", category := MaterialCategory.ore
      rarity := MaterialRarity.common, baseValue := 2417, isQuantanium := false
      description := none },
    { id := "tungsten", name := "Tungsten", category := MaterialCategory.ore
      rarity := MaterialRarity.common, baseValue := 4050, isQuantanium := false
      description := none } ]

/-- getMaterialById from the source. -/
def getMaterialById (id : String) : Option MinableMaterial :=
  MATERIALS.find? fun m => m.id == id

/-- The material base value lookup pattern of the source: the baseValue of
the material when found, 0 otherwise. -/
def materialBaseValue (materialId : String) : ℚ :=
  ((getMaterialById materialId).map MinableMaterial.baseValue).getD 0

/-! ## Refineries (src/types/refineries.ts) -/

/-- One refinery; yieldBonuses maps material ids to signed percentages. -/
structure Refinery where
  id : String
  locationId : String
  name : String
  operator : String
  yieldBonuses : List (String × ℚ)
deriving DecidableEq

/-- The static refinery table from the source. -/
def REFINERIES : List Refinery :=
  [ { id := "arc-l1-refinery", locationId := "arc-l1", name := "Wide Forest Station"
      operator := "Shubin Interstellar"
      yieldBonuses := [("quantanium", 3), ("taranite", -6), ("laranite", -2), ("beryl", 7),
        ("hephaestanite", -4), ("titanium", 5), ("iron", 1), ("quartz", 11),
        ("corundum", -4), ("aluminium", -5)] },
    { id := "arc-l2-refinery", locationId := "arc-l2", name := "Lively Pathway Station"
      operator := "Shubin Interstellar"
      yieldBonuses := [("quantanium", 3), ("bexalite", 2), ("gold", 7), ("borase", 2),
        ("hephaestanite", -8), ("tungsten", -6), ("titanium", 3), ("corundum", -3),
        ("copper", 6)] },
    { id := "arc-l4-refinery", locationId := "arc-l4", name := "Faint Glen Station"
      operator := "Shubin Interstellar"
      yieldBonuses := [("taranite", 5), ("gold", -4), ("beryl", -4), ("agricium", -4),
        ("hephaestanite", -5), ("tungsten", -5), ("titanium", -2), ("quartz", -2),
        ("corundum", -9), ("copper", -4), ("aluminium", -3)] },
    { id := "cru-l1-refinery", locationId := "cru-l1", name := "Ambitious Dream Station"
      operator := "Shubin Interstellar"
      yieldBonuses := [("bexalite", -6), ("gold", -6), ("laranite", -8), ("beryl", 7),
        ("hephaestanite", -2), ("tungsten", 2), ("titanium", -1), ("iron", 2),
        ("corundum", 7)] },
    { id := "hur-l1-refinery", locationId := "hur-l1", name := "Green Glade Station"
      operator := "Shubin Interstellar"
      yieldBonuses := [("quantanium", 2), ("bexalite", -2), ("gold", -3), ("borase", 1),
        ("laranite", 2), ("agricium", -8), ("tungsten", 4), ("iron", -5),
        ("corundum", -5), ("copper", -5), ("aluminium", -4)] },
    { id := "hur-l2-refinery", locationId := "hur-l2", name := "Faithful Dream Station"
      operator := "Shubin Interstellar"
      yieldBonuses := [("quantanium", 2), ("taranite", -3), ("gold", 1), ("laranite", -1),
        ("beryl", 1), ("agricium", -2), ("corundum", 1), ("copper", -3)] },
    { id := "mic-l1-refinery", locationId := "mic-l1", name := "Shallow Frontier Station"
      operator := "Shubin Interstellar"
      yieldBonuses := [("gold", 1), ("laranite", 2), ("beryl", -6), ("agricium", 8),
        ("quartz", -3), ("corundum", 2), ("copper", 4), ("aluminium", 7)] },
    { id := "mic-l2-refinery", locationId := "mic-l2", name := "Long Forest Station"
      operator := "Shubin Interstellar"
      yieldBonuses := [("quantanium", 1), ("bexalite", 9), ("gold", 9), ("borase", -3),
        ("laranite", -1), ("beryl", -8), ("tungsten", 9), ("titanium", 6),
        ("quartz", -5), ("corundum", 6), ("copper", 2)] },
    { id := "mic-l5-refinery", locationId := "mic-l5", name := "Modern Icarus Station"
      operator := "Shubin Interstellar"
      yieldBonuses := [("savrilium", 6), ("lindinium", 7), ("bexalite", 12), ("borase", 9),
        ("hephaestanite", 8), ("titanium", 13), ("torite", 8), ("iron", 8),
        ("copper", 9)] },
    { id := "pyro-gateway-refinery", locationId := "pyro-gateway", name := "Pyro Gateway"
      operator := "Gateway Services"
      yieldBonuses := [("bexalite", -6), ("gold", -6), ("laranite", -8), ("beryl", 7),
        ("hephaestanite", -2), ("tungsten", 2), ("titanium", -1), ("iron", 2),
        ("corundum", 7)] },
    { id := "terra-gateway-refinery", locationId := "terra-gateway", name := "Terra Gateway"
      operator := "Gateway Services"
      yieldBonuses := [("gold", 1), ("laranite", 2), ("beryl", -6), ("agricium", 8),
        ("quartz", -3), ("corundum", 2), ("copper", 4), ("aluminium", 7)] },
    { id := "nyx-gateway-refinery", locationId := "nyx-gateway", name := "Nyx Gateway"
      operator := "Gateway Services"
      yieldBonuses := [("quantanium", 3), ("taranite", -6), ("bexalite", -2), ("gold", -3),
        ("borase", 1), ("laranite", -2), ("beryl", 7), ("agricium", -8),
        ("hephaestanite", -4), ("tungsten", 4), ("titanium", 5), ("iron", 1),
        ("quartz", 11), ("corundum", -4), ("copper", -5), ("aluminium", -5)] } ]

/-- getYieldBonus from the source: the bonus for the material, 0 when the
material is not listed. -/
def getYieldBonus (refinery : Refinery) (materialId : String) : ℚ :=
  ((refinery.yieldBonuses.find? fun p => p.1 == materialId).map Prod.snd).getD 0

/-- Result entry of findBestRefineryByYield. -/
structure YieldResult where
  refinery : Refinery
  location : StantonLocation
  yieldPercent : ℚ
deriving DecidableEq

/-- findBestRefineryByYield from the source: every refinery whose location
resolves, with its yield bonus for the material, sorted by yield bonus
descending (stable). -/
def findBestRefineryByYield (materialId : String) : List YieldResult :=
  List.insertionSort (fun a b => b.yieldPercent ≤ a.yieldPercent)
    (REFINERIES.filterMap fun refinery =>
      (getLocationById refinery.locationId).map fun location =>
        { refinery := refinery
          location := location
          yieldPercent := getYieldBonus refinery materialId })

/-! ## Optimal refinery scoring (src/types/refineries.ts, lines 355-494) -/

/-- getDistanceScore from the source: the fixed absolute-threshold step
function over the distance in Gm. -/
noncomputable def getDistanceScore (distanceGm : ℝ) : ℝ :=
  if distanceGm < 15 then 1.0
  else if distanceGm < 30 then 0.85
  else if distanceGm < 45 then 0.6
  else if distanceGm < 60 then 0.35
  else 0.15

/-- Candidate of findOptimalRefinery after the location and coordinate
checks of its first pass. -/
structure RawCandidate where
  refinery : Refinery
  location : StantonLocation
  distanceGm : ℝ

/-- Result entry of findOptimalRefinery. -/
structure OptimalResult where
  refinery : Refinery
  location : StantonLocation
  score : ℝ
  distanceGm : ℝ
  yieldPercent : ℝ
  secondaryYieldPercent : ℝ
  combinedYieldPercent : ℝ
  primaryValueImpact : ℝ
  secondaryValueImpact : ℝ
  combinedValueImpact : ℝ

/-- The candidate list built by the first pass of findOptimalRefinery: every
refinery whose location and polar coordinates both resolve, with its
distance from the user position. -/
noncomputable def optimalCandidates (userPosition : PolarCoordinate) : List RawCandidate :=
  REFINERIES.filterMap fun refinery =>
    match getLocationById refinery.locationId, getLocationCoordinates refinery.locationId with
    | some location, some refineryCoords =>
      some { refinery := refinery
             location := location
             distanceGm := calculateDistance userPosition refineryCoords }
    | _, _ => none

/-- Minimum of a list of reals.  The source computes the running minimum of
the candidate impacts starting from plus Infinity; on a nonempty list that
equals this fold from the first element (the 0 case is never reached by
its callers here, whose candidate lists are nonempty). -/
noncomputable def listMin : List ℝ → ℝ
  | [] => 0
  | h :: t => t.foldl min h

/-- Maximum of a list of reals, mirroring listMin. -/
noncomputable def listMax : List ℝ → ℝ
  | [] => 0
  | h :: t => t.foldl max h

/-- findOptimalRefinery from the source.  The first pass collects
candidates and the range of combined value impacts; the second pass scores
every candidate by the value-and-distance blend and the result is sorted
by score descending (stable).  The default arguments of the source
(distanceWeight 0.5, cargo weights 0.30 and 0.70) are passed explicitly by
callers of this model. -/
noncomputable def findOptimalRefinery (userPosition : PolarCoordinate) (materialId : String)
    (distanceWeight : ℝ) (secondaryMaterialId : Option String)
    (primaryCargoWeight secondaryCargoWeight : ℝ) : List OptimalResult :=
  let primaryBaseValue : ℝ := (materialBaseValue materialId : ℚ)
  let secondaryBaseValue : ℝ :=
    match secondaryMaterialId with
    | some s => ((materialBaseValue s : ℚ) : ℝ)
    | none => 0
  let primaryWeight := if secondaryMaterialId.isSome then primaryCargoWeight else 1
  let secondaryWeight := if secondaryMaterialId.isSome then secondaryCargoWeight else 0
  let distances := optimalCandidates userPosition
  let impacts := distances.map fun c =>
    let primaryYield : ℝ := (getYieldBonus c.refinery materialId : ℚ)
    let secondaryYield : ℝ :=
      match secondaryMaterialId with
      | some s => ((getYieldBonus c.refinery s : ℚ) : ℝ)
      | none => 0
    primaryYield / 100 * primaryBaseValue * primaryWeight +
      secondaryYield / 100 * secondaryBaseValue * secondaryWeight
  let maxValueImpact := listMax impacts
  let minValueImpact := listMin impacts
  let valueRange := if maxValueImpact - minValueImpact = 0 then 1
    else maxValueImpact - minValueImpact
  let results := distances.map fun c =>
    let yieldPercent : ℝ := (getYieldBonus c.refinery materialId : ℚ)
    let secondaryYieldPercent : ℝ :=
      match secondaryMaterialId with
      | some s => ((getYieldBonus c.refinery s : ℚ) : ℝ)
      | none => 0
    let combinedYieldPercent := yieldPercent + secondaryYieldPercent
    let primaryValueImpact := yieldPercent / 100 * primaryBaseValue
    let secondaryValueImpact := secondaryYieldPercent / 100 * secondaryBaseValue
    let combinedValueImpact := primaryValueImpact * primaryWeight +
      secondaryValueImpact * secondaryWeight
    let distanceScore := getDistanceScore c.distanceGm
    let normalizedValue := (combinedValueImpact - minValueImpact) / valueRange
    let score := normalizedValue * (1 - distanceWeight) + distanceScore * distanceWeight
    { refinery := c.refinery
      location := c.location
      score := score
      distanceGm := c.distanceGm
      yieldPercent := yieldPercent
      secondaryYieldPercent := secondaryYieldPercent
      combinedYieldPercent := combinedYieldPercent
      primaryValueImpact := primaryValueImpact
      secondaryValueImpact := secondaryValueImpact
      combinedValueImpact := combinedValueImpact }
  List.insertionSort (fun a b => b.score ≤ a.score) results

/-! Compositional view of findOptimalRefinery.  The following definitions
name the per-candidate quantities computed inside findOptimalRefinery; the
bridging lemma findOptimalRefinery_eq states that the function equals the
stable descending sort of the mapped candidate list, definitionally. -/

/-- Primary base value lookup of findOptimalRefinery. -/
noncomputable def optimalPrimaryBase (materialId : String) : ℝ :=
  ((materialBaseValue materialId : ℚ) : ℝ)

/-- Secondary base value lookup of findOptimalRefinery. -/
noncomputable def optimalSecondaryBase (secondaryMaterialId : Option String) : ℝ :=
  match secondaryMaterialId with
  | some s => ((materialBaseValue s : ℚ) : ℝ)
  | none => 0

/-- Secondary yield lookup of findOptimalRefinery. -/
noncomputable def optimalSecondaryYield (secondaryMaterialId : Option String)
    (refinery : Refinery) : ℝ :=
  match secondaryMaterialId with
  | some s => ((getYieldBonus refinery s : ℚ) : ℝ)
  | none => 0

/-- The combined, cargo-weighted value impact of one refinery, as computed
identically by both passes of findOptimalRefinery. -/
noncomputable def optimalImpact (materialId : String) (secondaryMaterialId : Option String)
    (primaryCargoWeight secondaryCargoWeight : ℝ) (refinery : Refinery) : ℝ :=
  ((getYieldBonus refinery materialId : ℚ) : ℝ) / 100 * optimalPrimaryBase materialId *
      (if secondaryMaterialId.isSome then primaryCargoWeight else 1) +
    optimalSecondaryYield secondaryMaterialId refinery / 100 *
      optimalSecondaryBase secondaryMaterialId *
      (if secondaryMaterialId.isSome then secondaryCargoWeight else 0)

/-- The impacts of all candidates, in first-pass order. -/
noncomputable def optimalImpacts (userPosition : PolarCoordinate) (materialId : String)
    (secondaryMaterialId : Option String)
    (primaryCargoWeight secondaryCargoWeight : ℝ) : List ℝ :=
  (optimalCandidates userPosition).map fun c =>
    optimalImpact materialId secondaryMaterialId primaryCargoWeight secondaryCargoWeight
      c.refinery

/-- The value range of findOptimalRefinery: the impact spread, replaced by
1 when it is 0. -/
noncomputable def optimalValueRange (userPosition : PolarCoordinate) (materialId : String)
    (secondaryMaterialId : Option String)
    (primaryCargoWeight secondaryCargoWeight : ℝ) : ℝ :=
  if listMax (optimalImpacts userPosition materialId secondaryMaterialId
        primaryCargoWeight secondaryCargoWeight) -
      listMin (optimalImpacts userPosition materialId secondaryMaterialId
        primaryCargoWeight secondaryCargoWeight) = 0 then 1
  else
    listMax (optimalImpacts userPosition materialId secondaryMaterialId
        primaryCargoWeight secondaryCargoWeight) -
      listMin (optimalImpacts userPosition materialId secondaryMaterialId
        primaryCargoWeight secondaryCargoWeight)

/-- The normalized value of one refinery inside findOptimalRefinery. -/
noncomputable def optimalNormalizedValue (userPosition : PolarCoordinate)
    (materialId : String) (secondaryMaterialId : Option String)
    (primaryCargoWeight secondaryCargoWeight : ℝ) (refinery : Refinery) : ℝ :=
  (optimalImpact materialId secondaryMaterialId primaryCargoWeight secondaryCargoWeight
      refinery -
    listMin (optimalImpacts userPosition materialId secondaryMaterialId
      primaryCargoWeight secondaryCargoWeight)) /
    optimalValueRange userPosition materialId secondaryMaterialId
      primaryCargoWeight secondaryCargoWeight

/-- The blended score of one candidate inside findOptimalRefinery. -/
noncomputable def optimalScore (userPosition : PolarCoordinate) (materialId : String)
    (distanceWeight : ℝ) (secondaryMaterialId : Option String)
    (primaryCargoWeight secondaryCargoWeight : ℝ) (c : RawCandidate) : ℝ :=
  optimalNormalizedValue userPosition materialId secondaryMaterialId
      primaryCargoWeight secondaryCargoWeight c.refinery * (1 - distanceWeight) +
    getDistanceScore c.distanceGm * distanceWeight

/-- The full result record findOptimalRefinery builds for one candidate. -/
noncomputable def mkOptimalResult (userPosition : PolarCoordinate) (materialId : String)
    (distanceWeight : ℝ) (secondaryMaterialId : Option String)
    (primaryCargoWeight secondaryCargoWeight : ℝ) (c : RawCandidate) : OptimalResult :=
  { refinery := c.refinery
    location := c.location
    score := optimalScore userPosition materialId distanceWeight secondaryMaterialId
      primaryCargoWeight secondaryCargoWeight c
    distanceGm := c.distanceGm
    yieldPercent := ((getYieldBonus c.refinery materialId : ℚ) : ℝ)
    secondaryYieldPercent := optimalSecondaryYield secondaryMaterialId c.refinery
    combinedYieldPercent := ((getYieldBonus c.refinery materialId : ℚ) : ℝ) +
      optimalSecondaryYield secondaryMaterialId c.refinery
    primaryValueImpact := ((getYieldBonus c.refinery materialId : ℚ) : ℝ) / 100 *
      optimalPrimaryBase materialId
    secondaryValueImpact := optimalSecondaryYield secondaryMaterialId c.refinery / 100 *
      optimalSecondaryBase secondaryMaterialId
    combinedValueImpact := optimalImpact materialId secondaryMaterialId
      primaryCargoWeight secondaryCargoWeight c.refinery }

/-! ## The best-yield strategy of the RefineryFinder component
(src/components/RefineryFinder.tsx)

The component computes, for the best-yield mode, the findBestRefineryByYield
list enriched with value impacts, sorts it by combined value impact, and
keeps the entries with positive impact unless none exists.  The position is
only used to fill the cosmetic distanceGm display field; this model takes
the documented null-position path, where that field is 0.  score is a dead
field the component sets to 0 in this mode. -/

/-- Result entry of the component pipeline. -/
structure ComponentResult where
  refinery : Refinery
  location : StantonLocation
  yieldPercent : ℚ
  distanceGm : ℚ
  score : ℚ
  secondaryYieldPercent : ℚ
  combinedYieldPercent : ℚ
  primaryValueImpact : ℚ
  secondaryValueImpact : ℚ
  combinedValueImpact : ℚ
deriving DecidableEq

/-- The component list before filtering: findBestRefineryByYield output
enriched with value impacts and sorted by combined value impact
descending (stable). -/
def bestYieldSorted (selectedMaterial : String) (secondaryMaterial : Option String)
    (primaryCargoWeight secondaryCargoWeight : ℚ) : List ComponentResult :=
  let primaryBaseValue := materialBaseValue selectedMaterial
  let secondaryBaseValue :=
    match secondaryMaterial with
    | some s => materialBaseValue s
    | none => 0
  let results := (findBestRefineryByYield selectedMaterial).map fun r =>
    let secondaryYieldPercent :=
      match secondaryMaterial with
      | some s => getYieldBonus r.refinery s
      | none => 0
    let combinedYieldPercent := r.yieldPercent + secondaryYieldPercent
    let primaryValueImpact := r.yieldPercent / 100 * primaryBaseValue
    let secondaryValueImpact :=
      match secondaryMaterial with
      | some _ => secondaryYieldPercent / 100 * secondaryBaseValue
      | none => 0
    let combinedValueImpact := primaryValueImpact * primaryCargoWeight +
      secondaryValueImpact * secondaryCargoWeight
    { refinery := r.refinery
      location := r.location
      yieldPercent := r.yieldPercent
      distanceGm := 0
      score := 0
      secondaryYieldPercent := secondaryYieldPercent
      combinedYieldPercent := combinedYieldPercent
      primaryValueImpact := primaryValueImpact
      secondaryValueImpact := secondaryValueImpact
      combinedValueImpact := combinedValueImpact }
  List.insertionSort (fun a b => b.combinedValueImpact ≤ a.combinedValueImpact) results

/-- The best-yield strategy result of the component: the positive-impact
entries of the sorted list, or the whole sorted list when none is
positive. -/
def bestYieldResults (selectedMaterial : String) (secondaryMaterial : Option String)
    (primaryCargoWeight secondaryCargoWeight : ℚ) : List ComponentResult :=
  let sortedResults :=
    bestYieldSorted selectedMaterial secondaryMaterial primaryCargoWeight secondaryCargoWeight
  let positiveResults := sortedResults.filter fun r => decide (0 < r.combinedValueImpact)
  if 0 < positiveResults.length then positiveResults else sortedResults

/-! ## Statement-side helpers

The definitions below are written from the wording of the specification
claims (midpoint, radial scaling, the route quadratic and its roots, the
first maximum of a list); the claim theorems compare the source embedding
against them. -/

/-- Euclidean length of a cartesian vector. -/
noncomputable def vecNorm (v : CartesianCoordinate) : ℝ :=
  Real.sqrt (v.x * v.x + v.y * v.y)

/-- A vector scaled radially to the given length, as in the claims about
the interpolation fallbacks. -/
noncomputable def scaleToRadius (targetRadius : ℝ) (v : CartesianCoordinate) :
    CartesianCoordinate :=
  { x := v.x * (targetRadius / vecNorm v), y := v.y * (targetRadius / vecNorm v) }

/-- Midpoint of the cartesian segment between two points. -/
noncomputable def midpointC (a b : CartesianCoordinate) : CartesianCoordinate :=
  { x := (a.x + b.x) / 2, y := (a.y + b.y) / 2 }

/-- Unit direction vector of a route, from start toward destination. -/
noncomputable def routeUnit (start destination : PolarCoordinate) : CartesianCoordinate :=
  let s := polarToCartesian start
  let d := polarToCartesian destination
  let dx := d.x - s.x
  let dy := d.y - s.y
  let length := Real.sqrt (dx * dx + dy * dy)
  { x := dx / length, y := dy / length }

/-- Linear coefficient of the route quadratic, twice the dot product of the
start vector with the unit direction. -/
noncomputable def routeB (start destination : PolarCoordinate) : ℝ :=
  let s := polarToCartesian start
  let u := routeUnit start destination
  2 * (s.x * u.x + s.y * u.y)

/-- Constant coefficient of the route quadratic. -/
noncomputable def routeC (start : PolarCoordinate) (targetRadius : ℝ) : ℝ :=
  let s := polarToCartesian start
  s.x * s.x + s.y * s.y - targetRadius * targetRadius

/-- Discriminant of the route quadratic. -/
noncomputable def routeDisc (start destination : PolarCoordinate) (targetRadius : ℝ) : ℝ :=
  routeB start destination * routeB start destination - 4 * 1 * routeC start targetRadius

/-- Smaller root of the route quadratic. -/
noncomputable def routeT1 (start destination : PolarCoordinate) (targetRadius : ℝ) : ℝ :=
  (-routeB start destination - Real.sqrt (routeDisc start destination targetRadius)) / (2 * 1)

/-- Larger root of the route quadratic. -/
noncomputable def routeT2 (start destination : PolarCoordinate) (targetRadius : ℝ) : ℝ :=
  (-routeB start destination + Real.sqrt (routeDisc start destination targetRadius)) / (2 * 1)

/-- Point on the route line at parameter t: start plus t times the unit
direction. -/
noncomputable def linePoint (start destination : PolarCoordinate) (t : ℝ) :
    CartesianCoordinate :=
  let s := polarToCartesian start
  let u := routeUnit start destination
  { x := s.x + t * u.x, y := s.y + t * u.y }

/-- Value of the route quadratic at parameter t. -/
noncomputable def routeQuadAt (start destination : PolarCoordinate) (targetRadius t : ℝ) : ℝ :=
  t * t + routeB start destination * t + routeC start targetRadius

/-- Length of the cartesian segment from start to destination. -/
noncomputable def routeLength (start destination : PolarCoordinate) : ℝ :=
  let s := polarToCartesian start
  let d := polarToCartesian destination
  Real.sqrt ((d.x - s.x) * (d.x - s.x) + (d.y - s.y) * (d.y - s.y))

/-- The root selected by the claim wording: the smallest nonnegative root,
which is the smaller root when that is nonnegative and the larger root
otherwise. -/
noncomputable def routeFirstForwardRoot (start destination : PolarCoordinate)
    (targetRadius : ℝ) : ℝ :=
  if 0 ≤ routeT1 start destination targetRadius then routeT1 start destination targetRadius
  else routeT2 start destination targetRadius

/-- First maximum of a list under a real-valued key: the earliest element
whose key is maximal, none for the empty list.  A stable descending sort
places exactly this element first. -/
noncomputable def firstMaxBy {α : Type} (g : α → ℝ) : List α → Option α
  | [] => none
  | a :: l =>
    match firstMaxBy g l with
    | none => some a
    | some m => if g m ≤ g a then some a else some m

/-- A concrete three-band route used by witnesses: distances are in km and
distanceToDestination falls as the band id rises, as on a real route. -/
def sampleRouteExits : List BandExit :=
  [{ bandId := 1, distanceFromStanton := 19702000, distanceToDestination := 24754000
     distanceFromStart := 17659000 },
   { bandId := 2, distanceFromStanton := 19887000, distanceToDestination := 24570000
     distanceFromStart := 17843000 },
   { bandId := 3, distanceFromStanton := 19995000, distanceToDestination := 24407000
     distanceFromStart := 18007000 }]

/-! Totality and transitivity instances for the sort relations used by the
embedding, so that the Mathlib insertion-sort lemmas apply. -/

instance : IsTotal BandExit fun a b => a.bandId ≤ b.bandId :=
  ⟨fun a b => Nat.le_total a.bandId b.bandId⟩

instance : IsTrans BandExit fun a b => a.bandId ≤ b.bandId :=
  ⟨fun _ _ _ h h2 => Nat.le_trans h h2⟩

instance : IsTotal NearbyBand fun a b => a.distance ≤ b.distance :=
  ⟨fun a b => le_total a.distance b.distance⟩

instance : IsTrans NearbyBand fun a b => a.distance ≤ b.distance :=
  ⟨fun _ _ _ h h2 => le_trans h h2⟩

instance : IsTotal YieldResult fun a b => b.yieldPercent ≤ a.yieldPercent :=
  ⟨fun a b => le_total b.yieldPercent a.yieldPercent⟩

instance : IsTrans YieldResult fun a b => b.yieldPercent ≤ a.yieldPercent :=
  ⟨fun _ _ _ h h2 => le_trans h2 h⟩

instance : IsTotal ComponentResult fun a b => b.combinedValueImpact ≤ a.combinedValueImpact :=
  ⟨fun a b => le_total b.combinedValueImpact a.combinedValueImpact⟩

instance : IsTrans ComponentResult fun a b => b.combinedValueImpact ≤ a.combinedValueImpact :=
  ⟨fun _ _ _ h h2 => le_trans h2 h⟩

instance : IsTotal OptimalResult fun a b => b.score ≤ a.score :=
  ⟨fun a b => le_total b.score a.score⟩

instance : IsTrans OptimalResult fun a b => b.score ≤ a.score :=
  ⟨fun _ _ _ h h2 => le_trans h2 h⟩

instance : IsAntisymm BandExit fun a b => a.bandId < b.bandId :=
  ⟨fun a b h h2 => absurd (Nat.lt_trans h h2) (Nat.lt_irrefl _)⟩

/-- Two band exits with the same band id but different distances, exhibiting
the order dependence of calculateExitWidths on duplicate ids. -/
def dupExit₁ : BandExit :=
  { bandId := 1, distanceFromStanton := 100, distanceToDestination := 100
    distanceFromStart := 0 }

/-- Second exit on the same band id as dupExit₁. -/
def dupExit₂ : BandExit :=
  { bandId := 1, distanceFromStanton := 100, distanceToDestination := 200
    distanceFromStart := 0 }

/-- Two band exits with distinct band ids, for instantiating the
permutation invariance of calculateExitWidths. -/
def wExit₁ : BandExit :=
  { bandId := 1, distanceFromStanton := 100, distanceToDestination := 100
    distanceFromStart := 0 }

/-- Second exit, on a different band than wExit₁. -/
def wExit₂ : BandExit :=
  { bandId := 2, distanceFromStanton := 150, distanceToDestination := 50
    distanceFromStart := 50 }

/-- C7: for every distance r, isInHalo r is true exactly when r lies in the
closed interval from HALO_INNER_EDGE to HALO_OUTER_EDGE; HALO_INNER_EDGE is
the inner edge of the innermost band and HALO_OUTER_EDGE the outer edge of
the outermost band of the band table, and indeed every band of the table
lies inside that closed range. -/
theorem isInHalo_iff_between_halo_edges (r : ℚ) :
    (isInHalo r = true ↔ r ∈ Set.Icc HALO_INNER_EDGE HALO_OUTER_EDGE) ∧
    (BANDS.head?.map AaronHaloBand.innerDistance = some HALO_INNER_EDGE) ∧
    (BANDS.getLast?.map AaronHaloBand.outerDistance = some HALO_OUTER_EDGE) ∧
    BANDS.Forall fun b =>
      HALO_INNER_EDGE ≤ b.innerDistance ∧ b.outerDistance ≤ HALO_OUTER_EDGE := by
  refine ⟨?_, by decide, by decide, by decide⟩
  simp [isInHalo, Set.mem_Icc]

/-! ## Claim C2: exit width gap rule -/

/-- C2: calculateExitWidths keeps one annotated record per input record; in
ascending band-id order, each record carries gapToPrevious, the absolute
difference of its distanceToDestination with that of the previous entry
(undefined for the first, lowest-id, entry), gapToNext likewise toward the
next entry (undefined for the last, highest-id, entry), and exitWidth is
the minimum of the two gaps when both are defined, the single defined gap
when only one is, and 0 when neither is. -/
theorem calculateExitWidths_gap_rule (bandExits : List BandExit) :
    (calculateExitWidths bandExits).length = bandExits.length ∧
    List.Pairwise (fun a b => a.bandId ≤ b.bandId) (calculateExitWidths bandExits) ∧
    (∀ (i : ℕ) (e : BandExitWithWidth),
      (calculateExitWidths bandExits).get? i = some e →
      (exitsSortedById bandExits).get? i = some e.toBandExit ∧
      e.gapToPreviousBand =
        (if i = 0 then none
         else ((exitsSortedById bandExits).get? (i - 1)).map fun p =>
           |e.distanceToDestination - p.distanceToDestination|) ∧
      e.gapToNextBand =
        (((exitsSortedById bandExits).get? (i + 1)).map fun n =>
          |n.distanceToDestination - e.distanceToDestination|) ∧
      e.exitWidth =
        (match e.gapToPreviousBand, e.gapToNextBand with
         | some a, some b => min a b
         | some a, none => a
         | none, some b => b
         | none, none => 0)) ∧
    (∀ e, (calculateExitWidths bandExits).head? = some e → e.gapToPreviousBand = none) ∧
    (∀ e, (calculateExitWidths bandExits).getLast? = some e → e.gapToNextBand = none) := by
  have hsortlen : (exitsSortedById bandExits).length = bandExits.length :=
    List.length_insertionSort _ _
  have houtlen : (calculateExitWidths bandExits).length = (exitsSortedById bandExits).length := by
    simp [calculateExitWidths, List.enum_length]
  have hget : ∀ i : ℕ, (calculateExitWidths bandExits).get? i =
      ((exitsSortedById bandExits).get? i).map fun ex =>
        let sorted := exitsSortedById bandExits
        let prevExit : Option BandExit := if i = 0 then none else sorted.get? (i - 1)
        let nextExit : Option BandExit := sorted.get? (i + 1)
        let gapToPrevious : Option ℚ :=
          prevExit.map fun p => |ex.distanceToDestination - p.distanceToDestination|
        let gapToNext : Option ℚ :=
          nextExit.map fun n => |n.distanceToDestination - ex.distanceToDestination|
        let exitWidth : ℚ :=
          match gapToPrevious, gapToNext with
          | some a, some b => min a b
          | some a, none => a
          | none, some b => b
          | none, none => 0
        { toBandExit := ex
          exitWidth := exitWidth
          gapToPreviousBand := gapToPrevious
          gapToNextBand := gapToNext } := by
    intro i
    simp only [calculateExitWidths]
    rw [List.get?_map, List.get?_enum, Option.map_map]
    rfl
  have hmain : ∀ (i : ℕ) (e : BandExitWithWidth),
      (calculateExitWidths bandExits).get? i = some e →
      (exitsSortedById bandExits).get? i = some e.toBandExit ∧
      e.gapToPreviousBand =
        (if i = 0 then none
         else ((exitsSortedById bandExits).get? (i - 1)).map fun p =>
           |e.distanceToDestination - p.distanceToDestination|) ∧
      e.gapToNextBand =
        (((exitsSortedById bandExits).get? (i + 1)).map fun n =>
          |n.distanceToDestination - e.distanceToDestination|) ∧
      e.exitWidth =
        (match e.gapToPreviousBand, e.gapToNextBand with
         | some a, some b => min a b
         | some a, none => a
         | none, some b => b
         | none, none => 0) := by
    intro i e he
    rw [hget i] at he
    rcases Option.map_eq_some'.mp he with ⟨ex, hex, rfl⟩
    refine ⟨hex, ?_, rfl, rfl⟩
    by_cases hi : i = 0
    · simp [hi]
    · simp [hi]
  refine ⟨houtlen.trans hsortlen, ?_, hmain, ?_, ?_⟩
  · have hs : List.Sorted (fun a b : BandExit => a.bandId ≤ b.bandId)
        (exitsSortedById bandExits) :=
      List.sorted_insertionSort _ bandExits
    have hs2 : List.Pairwise
        (fun p q : ℕ × BandExit => p.2.bandId ≤ q.2.bandId)
        (exitsSortedById bandExits).enum := by
      have := hs
      rw [← List.enum_map_snd (exitsSortedById bandExits)] at this
      exact (List.pairwise_map.mp this).imp fun h => h
    simp only [calculateExitWidths]
    exact (List.pairwise_map.mpr (hs2.imp fun h => h))
  · intro e he
    rw [← List.get?_zero] at he
    rcases hmain 0 e he with ⟨-, h1, -, -⟩
    simpa using h1
  · intro e he
    rw [List.getLast?_eq_get?] at he
    rcases hmain _ e he with ⟨-, -, h2, -⟩
    have hne : calculateExitWidths bandExits ≠ [] := by
      intro hnil
      rw [hnil] at he
      simp at he
    have hpos : 0 < (calculateExitWidths bandExits).length :=
      List.length_pos.mpr hne
    have hidx : (calculateExitWidths bandExits).length - 1 + 1 =
        (exitsSortedById bandExits).length := by
      omega
    rw [hidx] at h2
    rw [List.get?_eq_none.mpr (le_refl _)] at h2
    simpa using h2

/-- Witness for C2: the gap rule applied to a concrete three-band route,
with the head hypothesis discharged by evaluation. -/
theorem calculateExitWidths_gap_rule_witness :
    (calculateExitWidths sampleRouteExits).length = sampleRouteExits.length ∧
    (∀ e, (calculateExitWidths sampleRouteExits).head? = some e →
      e.gapToPreviousBand = none) :=
  ⟨(calculateExitWidths_gap_rule sampleRouteExits).1,
   (calculateExitWidths_gap_rule sampleRouteExits).2.2.2.1⟩

/-! ## Claim C9: position analysis thresholds -/

/-- The source states every band interval lies inside the halo range; used
to show a position inside a band is classified as in the halo. -/
theorem bands_within_halo :
    ∀ b ∈ BANDS, HALO_INNER_EDGE ≤ b.innerDistance ∧ b.outerDistance ≤ HALO_OUTER_EDGE := by
  decide

/-- A resolved containing band forces the in-halo flag. -/
theorem isInHalo_of_findBandByDistance {r : ℚ} {band : AaronHaloBand}
    (h : findBandByDistance r = some band) : isInHalo r = true := by
  have hmem : band ∈ BANDS := List.mem_of_find?_eq_some h
  have hpred := List.find?_some h
  simp only [Bool.and_eq_true, decide_eq_true_eq] at hpred
  have hb := bands_within_halo band hmem
  simp only [isInHalo, Bool.and_eq_true, decide_eq_true_eq]
  exact ⟨le_trans hb.1 hpred.1, le_trans hpred.2 hb.2⟩

/-- Description branch of analyzePosition when a containing band resolves:
the at-peak branch under 10000 km, the edge-tagged branch otherwise. -/
theorem analyzePosition_desc_of_band {r : ℚ} {band : AaronHaloBand}
    (hband : findBandByDistance r = some band) :
    (analyzePosition r).positionDescription =
      (if |r - band.peakDensityDistance| < 10000 then PositionDescription.atPeak band
       else PositionDescription.offPeak band (|r - band.peakDensityDistance|)
         (if r < band.peakDensityDistance then EdgeDirection.inner
          else EdgeDirection.outer)) := by
  have hhalo : isInHalo r = true := isInHalo_of_findBandByDistance hband
  show (if isInHalo r = false then _ else _) = _
  rw [hhalo]
  simp only [Bool.true_eq_false, if_false]
  show (match findBandByDistance r with
    | some band => _
    | none => _) = _
  rw [hband]

/-- The nearbyBands field is the stable ascending sort of the raw list. -/
theorem analyzePosition_nearbyBands (r : ℚ) :
    (analyzePosition r).nearbyBands =
      List.insertionSort (fun a b => a.distance ≤ b.distance) (nearbyBandsRaw r) := rfl

/-- Membership characterization of the nearby-band list: a band of the
table appears exactly when its peak lies within 500000 km of the
position. -/
theorem analyzePosition_nearby_iff (r : ℚ) (b : AaronHaloBand) (hb : b ∈ BANDS) :
    (|r - b.peakDensityDistance| ≤ 500000 ↔
      ∃ e ∈ (analyzePosition r).nearbyBands,
        e.band = b ∧ e.distance = |r - b.peakDensityDistance|) := by
  rw [analyzePosition_nearbyBands]
  constructor
  · intro hle
    refine ⟨{ band := b, distance := |r - b.peakDensityDistance|
              direction := if 0 < r - b.peakDensityDistance then NearbyDirection.closer
                else NearbyDirection.further }, ?_, rfl, rfl⟩
    rw [List.mem_insertionSort, nearbyBandsRaw, List.mem_filter]
    exact ⟨List.mem_map.mpr ⟨b, hb, rfl⟩, by simpa using hle⟩
  · rintro ⟨e, hmem, hband, hdist⟩
    rw [List.mem_insertionSort, nearbyBandsRaw, List.mem_filter] at hmem
    rw [← hdist]
    simpa using hmem.2

/-- C9 (amended): for every distance r whose containing band resolves,
analyzePosition describes the position as at that band peak exactly when r
is within 10000 km of the peak density distance, and otherwise tags it as
the inner or outer edge by the sign of r minus the peak; the nearby list
consists exactly of the bands whose peak lies within 500000 km of r,
sorted ascending by distance, each tagged closer or further by the sign of
the difference with the peak.  The claim as stated, with 10 km and 500 km,
fails: see the counterexample. -/
theorem analyzePosition_thresholds (r : ℚ) :
    (∀ band, (analyzePosition r).currentBand = some band →
      (((analyzePosition r).positionDescription = PositionDescription.atPeak band ↔
          |r - band.peakDensityDistance| < 10000) ∧
        (¬ |r - band.peakDensityDistance| < 10000 →
          (analyzePosition r).positionDescription =
            PositionDescription.offPeak band (|r - band.peakDensityDistance|)
              (if r < band.peakDensityDistance then EdgeDirection.inner
               else EdgeDirection.outer)))) ∧
    ((analyzePosition r).nearbyBands.Pairwise fun a b => a.distance ≤ b.distance) ∧
    (∀ b ∈ BANDS, (|r - b.peakDensityDistance| ≤ 500000 ↔
      ∃ e ∈ (analyzePosition r).nearbyBands,
        e.band = b ∧ e.distance = |r - b.peakDensityDistance|)) ∧
    (∀ e ∈ (analyzePosition r).nearbyBands,
      e.distance = |r - e.band.peakDensityDistance| ∧
      e.direction = (if 0 < r - e.band.peakDensityDistance then NearbyDirection.closer
        else NearbyDirection.further)) := by
  refine ⟨?_, ?_, analyzePosition_nearby_iff r, ?_⟩
  · intro band hband
    have hfind : findBandByDistance r = some band := hband
    have hdesc := analyzePosition_desc_of_band hfind
    constructor
    · constructor
      · intro h
        by_contra hlt
        rw [hdesc, if_neg hlt] at h
        exact absurd h (by simp)
      · intro h
        rw [hdesc, if_pos h]
    · intro h
      rw [hdesc, if_neg h]
  · rw [analyzePosition_nearbyBands]
    exact List.sorted_insertionSort _ _
  · intro e hmem
    rw [analyzePosition_nearbyBands, List.mem_insertionSort, nearbyBandsRaw,
      List.mem_filter] at hmem
    rcases List.mem_map.mp hmem.1 with ⟨b, _, rfl⟩
    exact ⟨rfl, rfl⟩

/-- Witness for C9: the amended thresholds at a concrete position inside
Band 5, the containing-band hypothesis discharged by evaluation. -/
theorem analyzePosition_thresholds_witness :
    ((analyzePosition 20325000).positionDescription = PositionDescription.atPeak band5 ↔
      |(20325000 : ℚ) - band5.peakDensityDistance| < 10000) ∧
    ((analyzePosition 20325000).nearbyBands.Pairwise fun a b => a.distance ≤ b.distance) :=
  ⟨((analyzePosition_thresholds 20325000).1 band5 (by decide)).1,
   (analyzePosition_thresholds 20325000).2.1⟩

/-- Counterexample to C9 as stated: at 20325000 km the position is 5000 km
from the Band 5 peak, which is not within 10 km, yet the description is
the at-peak branch, and Band 5 stays in the nearby list although its peak
is not within 500 km. -/
theorem analyzePosition_spec_thresholds_fail :
    (analyzePosition 20325000).positionDescription = PositionDescription.atPeak band5 ∧
    ¬ |(20325000 : ℚ) - band5.peakDensityDistance| < 10 ∧
    (∃ e ∈ (analyzePosition 20325000).nearbyBands, e.band = band5) ∧
    ¬ |(20325000 : ℚ) - band5.peakDensityDistance| ≤ 500 := by
  have habs : |(20325000 : ℚ) - band5.peakDensityDistance| = 5000 := by
    show |(20325000 : ℚ) - 20320000| = 5000
    rw [show (20325000 : ℚ) - 20320000 = 5000 by norm_num]
    exact abs_of_nonneg (by norm_num)
  refine ⟨?_, ?_, ?_, ?_⟩
  · rw [analyzePosition_desc_of_band (by decide : findBandByDistance 20325000 = some band5),
      habs, if_pos (by norm_num)]
  · rw [habs]
    norm_num
  · rcases (analyzePosition_nearby_iff 20325000 band5 (by decide)).mp
        (by rw [habs]; norm_num) with ⟨e, he, hband, -⟩
    exact ⟨e, he, hband⟩
  · rw [habs]
    norm_num

/-! ## Claim C4: the zero-length route is not guarded -/

/-- Evaluation helper: the cartesian image of the polar point with r = 1
and theta = 0. -/
theorem polarToCartesian_one_zero :
    polarToCartesian { r := 1, theta := 0 } = { x := 1, y := 0 } := by
  simp [polarToCartesian, degreesToRadians]

/-- Evaluation helper: converting the cartesian point x = 2, y = 0 back to
polar coordinates. -/
theorem cartesianToPolar_two_zero :
    cartesianToPolar { x := 2, y := 0 } = { r := 2, theta := 0 } := by
  unfold cartesianToPolar atan2
  have harg : Complex.arg ⟨2, 0⟩ = 0 := by
    have h2 : (⟨2, 0⟩ : ℂ) = ((2 : ℝ) : ℂ) := by
      apply Complex.ext <;> simp
    rw [h2]
    exact Complex.arg_ofReal_of_nonneg (by norm_num)
  rw [harg]
  have hr : Real.sqrt ((2 : ℝ) * 2 + 0 * 0) = 2 := by
    rw [show (2 : ℝ) * 2 + 0 * 0 = 2 ^ 2 by norm_num]
    exact Real.sqrt_sq (by norm_num)
  simp [hr]

/-- C4, a code bug witnessed at a failing input: calling
interpolatePositionOnRoute with start equal to destination (here the point
r = 1, theta = 0, with targetRadius 2) runs into a zero direction length,
so the source divides by zero while normalizing the direction vector
(first conjunct: the divisor is 0), and the call returns the input scaled
radially to the target radius, r = 2, theta = 0, which differs from the
input point, contradicting the contract that the input be returned
unchanged. -/
theorem interpolate_same_point_not_guarded :
    Real.sqrt
        (((polarToCartesian { r := 1, theta := 0 }).x -
            (polarToCartesian { r := 1, theta := 0 }).x) *
          ((polarToCartesian { r := 1, theta := 0 }).x -
            (polarToCartesian { r := 1, theta := 0 }).x) +
          ((polarToCartesian { r := 1, theta := 0 }).y -
            (polarToCartesian { r := 1, theta := 0 }).y) *
          ((polarToCartesian { r := 1, theta := 0 }).y -
            (polarToCartesian { r := 1, theta := 0 }).y)) = 0 ∧
    interpolatePositionOnRoute { r := 1, theta := 0 } { r := 1, theta := 0 } 2 =
      { r := 2, theta := 0 } ∧
    ({ r := 2, theta := 0 } : PolarCoordinate) ≠ { r := 1, theta := 0 } := by
  have hlen : Real.sqrt
      (((polarToCartesian { r := 1, theta := 0 }).x -
          (polarToCartesian { r := 1, theta := 0 }).x) *
        ((polarToCartesian { r := 1, theta := 0 }).x -
          (polarToCartesian { r := 1, theta := 0 }).x) +
        ((polarToCartesian { r := 1, theta := 0 }).y -
          (polarToCartesian { r := 1, theta := 0 }).y) *
        ((polarToCartesian { r := 1, theta := 0 }).y -
          (polarToCartesian { r := 1, theta := 0 }).y)) = 0 := by
    simp
  refine ⟨hlen, ?_, ?_⟩
  · unfold interpolatePositionOnRoute
    rw [polarToCartesian_one_zero]
    simp only
    rw [if_pos (by simp)]
    have hdestR : Real.sqrt ((1 : ℝ) * 1 + 0 * 0) = 1 := by
      simp
    simp only [hdestR]
    have hpoint : ({ x := 1 * (2 / 1), y := 0 * (2 / 1) } : CartesianCoordinate) =
        { x := 2, y := 0 } := by
      simp
    rw [hpoint, cartesianToPolar_two_zero]
  · intro h
    have := congrArg PolarCoordinate.r h
    norm_num at this

/-! ## Claim C8: polar-cartesian round trip -/

/-- C8: for every polar coordinate with positive radius, converting to
cartesian and back reproduces the radius exactly and reproduces the angle
up to an integer multiple of 360 degrees.  Exact equality in the real
model implies the 1e-6 tolerance of the claim. -/
theorem polar_roundtrip (p : PolarCoordinate) (hr : 0 < p.r) :
    (cartesianToPolar (polarToCartesian p)).r = p.r ∧
    ∃ k : ℤ, (cartesianToPolar (polarToCartesian p)).theta = p.theta + 360 * k := by
  set a := degreesToRadians p.theta with ha
  have hsq : p.r * Real.cos a * (p.r * Real.cos a) +
      p.r * Real.sin a * (p.r * Real.sin a) = p.r ^ 2 := by
    have h := Real.sin_sq_add_cos_sq a
    nlinarith [h]
  constructor
  · show Real.sqrt (p.r * Real.cos a * (p.r * Real.cos a) +
      p.r * Real.sin a * (p.r * Real.sin a)) = p.r
    rw [hsq]
    exact Real.sqrt_sq hr.le
  · refine ⟨⌊(Real.pi - a) / (2 * Real.pi)⌋, ?_⟩
    show atan2 (p.r * Real.sin a) (p.r * Real.cos a) * (180 / Real.pi) = _
    have hz : (⟨p.r * Real.cos a, p.r * Real.sin a⟩ : ℂ) =
        (p.r : ℂ) * (Complex.cos a + Complex.sin a * Complex.I) := by
      apply Complex.ext <;>
        simp [Complex.cos_ofReal_re, Complex.sin_ofReal_re]
    have harg : Complex.arg ⟨p.r * Real.cos a, p.r * Real.sin a⟩ - a =
        2 * Real.pi * ⌊(Real.pi - a) / (2 * Real.pi)⌋ := by
      rw [hz]
      exact Complex.arg_mul_cos_add_sin_mul_I_sub hr a
    unfold atan2
    have hargeq : Complex.arg ⟨p.r * Real.cos a, p.r * Real.sin a⟩ =
        a + 2 * Real.pi * ⌊(Real.pi - a) / (2 * Real.pi)⌋ := by linarith [harg]
    rw [hargeq, ha]
    unfold degreesToRadians
    have hpi : Real.pi ≠ 0 := Real.pi_ne_zero
    field_simp
    ring

/-- Witness for C8: the round trip at the concrete point r = 2, theta = 0,
with the positivity hypothesis discharged numerically. -/
theorem polar_roundtrip_witness :
    (cartesianToPolar (polarToCartesian { r := 2, theta := 0 })).r = 2 ∧
    ∃ k : ℤ, (cartesianToPolar (polarToCartesian { r := 2, theta := 0 })).theta =
      0 + 360 * k :=
  polar_roundtrip { r := 2, theta := 0 } (by norm_num)

/-! ## Claim C1: route interpolation against the quadratic case analysis -/

/-- Distinct cartesian points give a nonzero direction length. -/
theorem route_length_ne_zero {s d : CartesianCoordinate} (hne : s ≠ d) :
    Real.sqrt ((d.x - s.x) * (d.x - s.x) + (d.y - s.y) * (d.y - s.y)) ≠ 0 := by
  intro h0
  have hnn : 0 ≤ (d.x - s.x) * (d.x - s.x) + (d.y - s.y) * (d.y - s.y) :=
    add_nonneg (mul_self_nonneg _) (mul_self_nonneg _)
  have hzero : (d.x - s.x) * (d.x - s.x) + (d.y - s.y) * (d.y - s.y) = 0 :=
    (Real.sqrt_eq_zero hnn).mp h0
  have hx : d.x - s.x = 0 := by nlinarith [mul_self_nonneg (d.x - s.x), mul_self_nonneg (d.y - s.y)]
  have hy : d.y - s.y = 0 := by nlinarith [mul_self_nonneg (d.x - s.x), mul_self_nonneg (d.y - s.y)]
  apply hne
  cases s
  cases d
  simp only [CartesianCoordinate.mk.injEq]
  simp only at hx hy
  exact ⟨by linarith, by linarith⟩

/-- The smaller root never exceeds the larger root. -/
theorem routeT1_le_routeT2 (start destination : PolarCoordinate) (targetRadius : ℝ) :
    routeT1 start destination targetRadius ≤ routeT2 start destination targetRadius := by
  unfold routeT1 routeT2
  have h := Real.sqrt_nonneg (routeDisc start destination targetRadius)
  linarith

set_option maxHeartbeats 1600000 in
/-- Structural case analysis of interpolatePositionOnRoute for a route with
distinct cartesian endpoints: the negative-discriminant midpoint fallback,
the first-forward-root intersection when the larger root is nonnegative,
or the scaled-destination fallback when both roots are negative. -/
theorem interpolate_eq_cases (start destination : PolarCoordinate) (targetRadius : ℝ)
    (hne : polarToCartesian start ≠ polarToCartesian destination) :
    interpolatePositionOnRoute start destination targetRadius =
      (if routeDisc start destination targetRadius < 0 then
        cartesianToPolar (scaleToRadius targetRadius
          (midpointC (polarToCartesian start) (polarToCartesian destination)))
      else if 0 ≤ routeT2 start destination targetRadius then
        cartesianToPolar (linePoint start destination
          (routeFirstForwardRoot start destination targetRadius))
      else
        cartesianToPolar (scaleToRadius targetRadius (polarToCartesian destination))) := by
  have h12 := routeT1_le_routeT2 start destination targetRadius
  simp only [interpolatePositionOnRoute, routeDisc, routeB, routeC, routeT1, routeT2,
    routeUnit, routeFirstForwardRoot, linePoint, midpointC, scaleToRadius, vecNorm] at h12 ⊢
  rcases hs : polarToCartesian start with ⟨sx, sy⟩
  rcases hd : polarToCartesian destination with ⟨dx0, dy0⟩
  rw [hs, hd] at hne h12
  simp only at h12 ⊢
  have hL : Real.sqrt ((dx0 - sx) * (dx0 - sx) + (dy0 - sy) * (dy0 - sy)) ≠ 0 :=
    route_length_ne_zero hne
  set L := Real.sqrt ((dx0 - sx) * (dx0 - sx) + (dy0 - sy) * (dy0 - sy)) with hLdef
  set B := 2 * (sx * ((dx0 - sx) / L) + sy * ((dy0 - sy) / L)) with hBdef
  set C := sx * sx + sy * sy - targetRadius * targetRadius with hCdef
  set D := B * B - 4 * 1 * C with hDdef
  set t1 := (-B - Real.sqrt D) / (2 * 1) with ht1def
  set t2 := (-B + Real.sqrt D) / (2 * 1) with ht2def
  rw [if_neg hL]
  by_cases hD : D < 0
  · rw [if_pos hD, if_pos hD]
  · rw [if_neg hD, if_neg hD]
    by_cases h1 : 0 ≤ t1
    · have h2 : 0 ≤ t2 := le_trans h1 h12
      simp only [if_pos (And.intro h1 h2), if_pos h1, if_pos h2, min_eq_left h12]
    · by_cases h2 : 0 ≤ t2
      · simp only [if_neg (show ¬(0 ≤ t1 ∧ 0 ≤ t2) by tauto), if_neg h1, if_pos h2]
      · simp only [if_neg (show ¬(0 ≤ t1 ∧ 0 ≤ t2) by tauto), if_neg h1, if_neg h2]

/-- Factorization of a monic quadratic with nonnegative discriminant by its
two root formulas. -/
theorem quad_factor_abs (Bv Cv t : ℝ) (hD : 0 ≤ Bv * Bv - 4 * 1 * Cv) :
    t * t + Bv * t + Cv =
      (t - (-Bv - Real.sqrt (Bv * Bv - 4 * 1 * Cv)) / (2 * 1)) *
        (t - (-Bv + Real.sqrt (Bv * Bv - 4 * 1 * Cv)) / (2 * 1)) := by
  have h := Real.mul_self_sqrt hD
  linear_combination ((1 : ℝ) / 4) * h

/-- The route quadratic factors through its two roots. -/
theorem routeQuad_eq_factor (start destination : PolarCoordinate) (targetRadius : ℝ)
    (hD : 0 ≤ routeDisc start destination targetRadius) (t : ℝ) :
    routeQuadAt start destination targetRadius t =
      (t - routeT1 start destination targetRadius) *
        (t - routeT2 start destination targetRadius) := by
  unfold routeQuadAt routeT1 routeT2
  unfold routeDisc at hD ⊢
  exact quad_factor_abs _ _ t hD

/-- The roots of the route quadratic are exactly the two root formulas. -/
theorem routeQuad_root_iff (start destination : PolarCoordinate) (targetRadius : ℝ)
    (hD : 0 ≤ routeDisc start destination targetRadius) (t : ℝ) :
    routeQuadAt start destination targetRadius t = 0 ↔
      t = routeT1 start destination targetRadius ∨
      t = routeT2 start destination targetRadius := by
  rw [routeQuad_eq_factor start destination targetRadius hD t]
  rw [mul_eq_zero, sub_eq_zero, sub_eq_zero]

/-- A cartesian point on the circle of a nonnegative radius converts to a
polar coordinate with exactly that radius. -/
theorem cartesianToPolar_r_eq (v : CartesianCoordinate) (targetRadius : ℝ)
    (htr : 0 ≤ targetRadius) (h : v.x * v.x + v.y * v.y = targetRadius * targetRadius) :
    (cartesianToPolar v).r = targetRadius := by
  show Real.sqrt (v.x * v.x + v.y * v.y) = targetRadius
  rw [h]
  exact Real.sqrt_mul_self htr

/-- Scaling a nonzero vector radially to a target radius lands on the
circle of that radius. -/
theorem scaleToRadius_norm (v : CartesianCoordinate) (targetRadius : ℝ)
    (hv : 0 < v.x * v.x + v.y * v.y) :
    (scaleToRadius targetRadius v).x * (scaleToRadius targetRadius v).x +
      (scaleToRadius targetRadius v).y * (scaleToRadius targetRadius v).y =
      targetRadius * targetRadius := by
  unfold scaleToRadius vecNorm
  have hS : Real.sqrt (v.x * v.x + v.y * v.y) * Real.sqrt (v.x * v.x + v.y * v.y) =
      v.x * v.x + v.y * v.y := Real.mul_self_sqrt hv.le
  have hSne : Real.sqrt (v.x * v.x + v.y * v.y) ≠ 0 :=
    ne_of_gt (Real.sqrt_pos.mpr hv)
  simp only
  field_simp
  ring

/-- Norm identity along the route line: the squared norm of the line point
at parameter t is the route quadratic at t plus the squared target
radius. -/
theorem linePoint_norm (start destination : PolarCoordinate) (targetRadius t : ℝ)
    (hne : polarToCartesian start ≠ polarToCartesian destination) :
    (linePoint start destination t).x * (linePoint start destination t).x +
      (linePoint start destination t).y * (linePoint start destination t).y =
      routeQuadAt start destination targetRadius t + targetRadius * targetRadius := by
  have hL : Real.sqrt
      (((polarToCartesian destination).x - (polarToCartesian start).x) *
        ((polarToCartesian destination).x - (polarToCartesian start).x) +
        ((polarToCartesian destination).y - (polarToCartesian start).y) *
        ((polarToCartesian destination).y - (polarToCartesian start).y)) ≠ 0 :=
    route_length_ne_zero hne
  have hnn : 0 ≤ ((polarToCartesian destination).x - (polarToCartesian start).x) *
      ((polarToCartesian destination).x - (polarToCartesian start).x) +
      ((polarToCartesian destination).y - (polarToCartesian start).y) *
      ((polarToCartesian destination).y - (polarToCartesian start).y) :=
    add_nonneg (mul_self_nonneg _) (mul_self_nonneg _)
  have hL2 := Real.mul_self_sqrt hnn
  simp only [linePoint, routeQuadAt, routeB, routeC, routeUnit] at *
  rcases hs : polarToCartesian start with ⟨sx, sy⟩
  rcases hd : polarToCartesian destination with ⟨dx0, dy0⟩
  rw [hs, hd] at hL hL2
  simp only at hL hL2 ⊢
  set L := Real.sqrt ((dx0 - sx) * (dx0 - sx) + (dy0 - sy) * (dy0 - sy)) with hLdef
  field_simp
  linear_combination (-(L * t * t)) * hL2

/-- At parameter equal to the route length, the line point is the
destination. -/
theorem linePoint_at_length (start destination : PolarCoordinate)
    (hne : polarToCartesian start ≠ polarToCartesian destination) :
    linePoint start destination (routeLength start destination) =
      polarToCartesian destination := by
  have hL : Real.sqrt
      (((polarToCartesian destination).x - (polarToCartesian start).x) *
        ((polarToCartesian destination).x - (polarToCartesian start).x) +
        ((polarToCartesian destination).y - (polarToCartesian start).y) *
        ((polarToCartesian destination).y - (polarToCartesian start).y)) ≠ 0 :=
    route_length_ne_zero hne
  simp only [linePoint, routeLength, routeUnit] at *
  rcases hs : polarToCartesian start with ⟨sx, sy⟩
  rcases hd : polarToCartesian destination with ⟨dx0, dy0⟩
  rw [hs, hd] at hL
  simp only at hL ⊢
  set L := Real.sqrt ((dx0 - sx) * (dx0 - sx) + (dy0 - sy) * (dy0 - sy)) with hLdef
  have hx : sx + L * ((dx0 - sx) / L) = dx0 := by
    field_simp
  have hy : sy + L * ((dy0 - sy) / L) = dy0 := by
    field_simp
  rw [hx, hy]

/-- The route length is positive when the endpoints differ. -/
theorem routeLength_pos (start destination : PolarCoordinate)
    (hne : polarToCartesian start ≠ polarToCartesian destination) :
    0 < routeLength start destination := by
  have hL : Real.sqrt
      (((polarToCartesian destination).x - (polarToCartesian start).x) *
        ((polarToCartesian destination).x - (polarToCartesian start).x) +
        ((polarToCartesian destination).y - (polarToCartesian start).y) *
        ((polarToCartesian destination).y - (polarToCartesian start).y)) ≠ 0 :=
    route_length_ne_zero hne
  have hnn := Real.sqrt_nonneg
    (((polarToCartesian destination).x - (polarToCartesian start).x) *
      ((polarToCartesian destination).x - (polarToCartesian start).x) +
      ((polarToCartesian destination).y - (polarToCartesian start).y) *
      ((polarToCartesian destination).y - (polarToCartesian start).y))
  have : routeLength start destination = Real.sqrt
      (((polarToCartesian destination).x - (polarToCartesian start).x) *
        ((polarToCartesian destination).x - (polarToCartesian start).x) +
        ((polarToCartesian destination).y - (polarToCartesian start).y) *
        ((polarToCartesian destination).y - (polarToCartesian start).y)) := rfl
  rw [this]
  exact lt_of_le_of_ne hnn (Ne.symm hL)

/-- When the discriminant is negative the route midpoint cannot be the
origin: its squared norm exceeds the squared target radius. -/
theorem midpoint_norm_pos (start destination : PolarCoordinate) (targetRadius : ℝ)
    (hne : polarToCartesian start ≠ polarToCartesian destination)
    (hD : routeDisc start destination targetRadius < 0) :
    0 < (midpointC (polarToCartesian start) (polarToCartesian destination)).x *
        (midpointC (polarToCartesian start) (polarToCartesian destination)).x +
      (midpointC (polarToCartesian start) (polarToCartesian destination)).y *
        (midpointC (polarToCartesian start) (polarToCartesian destination)).y := by
  have hL : Real.sqrt
      (((polarToCartesian destination).x - (polarToCartesian start).x) *
        ((polarToCartesian destination).x - (polarToCartesian start).x) +
        ((polarToCartesian destination).y - (polarToCartesian start).y) *
        ((polarToCartesian destination).y - (polarToCartesian start).y)) ≠ 0 :=
    route_length_ne_zero hne
  have hnn : 0 ≤ ((polarToCartesian destination).x - (polarToCartesian start).x) *
      ((polarToCartesian destination).x - (polarToCartesian start).x) +
      ((polarToCartesian destination).y - (polarToCartesian start).y) *
      ((polarToCartesian destination).y - (polarToCartesian start).y) :=
    add_nonneg (mul_self_nonneg _) (mul_self_nonneg _)
  have hL2 := Real.mul_self_sqrt hnn
  simp only [routeDisc, routeB, routeC, routeUnit, midpointC] at *
  rcases hs : polarToCartesian start with ⟨sx, sy⟩
  rcases hd : polarToCartesian destination with ⟨dx0, dy0⟩
  rw [hs, hd] at hL hL2 hD
  simp only at hL hL2 hD ⊢
  set L := Real.sqrt ((dx0 - sx) * (dx0 - sx) + (dy0 - sy) * (dy0 - sy)) with hLdef
  have hL2pos : 0 < L * L := by
    rcases lt_or_eq_of_le (Real.sqrt_nonneg ((dx0 - sx) * (dx0 - sx) +
        (dy0 - sy) * (dy0 - sy))) with h | h
    · exact mul_pos h h
    · exact absurd h.symm hL
  have e1 : 2 * (sx * ((dx0 - sx) / L) + sy * ((dy0 - sy) / L)) =
      2 * ((sx * (dx0 - sx) + sy * (dy0 - sy)) / L) := by
    ring
  rw [e1] at hD
  have e2 : (2 * ((sx * (dx0 - sx) + sy * (dy0 - sy)) / L)) *
      (2 * ((sx * (dx0 - sx) + sy * (dy0 - sy)) / L)) =
      4 * ((sx * (dx0 - sx) + sy * (dy0 - sy)) * (sx * (dx0 - sx) + sy * (dy0 - sy)) /
        (L * L)) := by
    ring
  rw [e2] at hD
  have h0 : (sx * (dx0 - sx) + sy * (dy0 - sy)) * (sx * (dx0 - sx) + sy * (dy0 - sy)) /
      (L * L) < sx * sx + sy * sy - targetRadius * targetRadius := by
    linarith
  have h1 : (sx * (dx0 - sx) + sy * (dy0 - sy)) * (sx * (dx0 - sx) + sy * (dy0 - sy)) <
      (sx * sx + sy * sy - targetRadius * targetRadius) * (L * L) :=
    (div_lt_iff hL2pos).mp h0
  rw [hL2] at h1
  nlinarith [h1, mul_self_nonneg targetRadius,
    sq_nonneg (sx * (dx0 - sx) + sy * (dy0 - sy) +
      ((dx0 - sx) * (dx0 - sx) + (dy0 - sy) * (dy0 - sy)) / 2),
    mul_self_nonneg (dx0 - sx), mul_self_nonneg (dy0 - sy)]

/-- When both roots are negative the destination cannot be the origin: its
squared norm exceeds the squared target radius. -/
theorem dest_norm_pos (start destination : PolarCoordinate) (targetRadius : ℝ)
    (hne : polarToCartesian start ≠ polarToCartesian destination)
    (hD : 0 ≤ routeDisc start destination targetRadius)
    (h2 : routeT2 start destination targetRadius < 0) :
    0 < (polarToCartesian destination).x * (polarToCartesian destination).x +
      (polarToCartesian destination).y * (polarToCartesian destination).y := by
  have hLpos := routeLength_pos start destination hne
  have hnorm := linePoint_norm start destination targetRadius
    (routeLength start destination) hne
  rw [linePoint_at_length start destination hne] at hnorm
  have hfac := routeQuad_eq_factor start destination targetRadius hD
    (routeLength start destination)
  have h12 := routeT1_le_routeT2 start destination targetRadius
  have hprod : 0 < (routeLength start destination -
      routeT1 start destination targetRadius) *
      (routeLength start destination - routeT2 start destination targetRadius) := by
    apply mul_pos <;> linarith
  rw [hnorm, hfac]
  nlinarith [hprod, mul_self_nonneg targetRadius]

/-- C1: for distinct route endpoints and a nonnegative target radius,
interpolatePositionOnRoute returns, by the sign of the discriminant of the
route quadratic: the midpoint of the cartesian segment scaled radially to
the target radius when the discriminant is negative; the line point at the
smallest nonnegative root when a nonnegative root exists (that point lies
at distance targetRadius from the origin and the chosen parameter is a
root, nonnegative and minimal among nonnegative roots, hence the first
crossing in the direction of travel); and the destination vector scaled to
the target radius when both roots are negative.  In the two fallback
branches the returned point also lies at distance targetRadius from the
origin. -/
theorem interpolatePositionOnRoute_spec (start destination : PolarCoordinate)
    (targetRadius : ℝ)
    (hne : polarToCartesian start ≠ polarToCartesian destination)
    (htr : 0 ≤ targetRadius) :
    (routeDisc start destination targetRadius < 0 →
      interpolatePositionOnRoute start destination targetRadius =
        cartesianToPolar (scaleToRadius targetRadius
          (midpointC (polarToCartesian start) (polarToCartesian destination))) ∧
      (interpolatePositionOnRoute start destination targetRadius).r = targetRadius) ∧
    (0 ≤ routeDisc start destination targetRadius →
      0 ≤ routeT2 start destination targetRadius →
      interpolatePositionOnRoute start destination targetRadius =
        cartesianToPolar (linePoint start destination
          (routeFirstForwardRoot start destination targetRadius)) ∧
      (interpolatePositionOnRoute start destination targetRadius).r = targetRadius ∧
      routeQuadAt start destination targetRadius
        (routeFirstForwardRoot start destination targetRadius) = 0 ∧
      0 ≤ routeFirstForwardRoot start destination targetRadius ∧
      (∀ t, routeQuadAt start destination targetRadius t = 0 → 0 ≤ t →
        routeFirstForwardRoot start destination targetRadius ≤ t)) ∧
    (0 ≤ routeDisc start destination targetRadius →
      routeT2 start destination targetRadius < 0 →
      interpolatePositionOnRoute start destination targetRadius =
        cartesianToPolar (scaleToRadius targetRadius (polarToCartesian destination)) ∧
      (interpolatePositionOnRoute start destination targetRadius).r = targetRadius) := by
  have hcases := interpolate_eq_cases start destination targetRadius hne
  refine ⟨?_, ?_, ?_⟩
  · intro hD
    have heq : interpolatePositionOnRoute start destination targetRadius =
        cartesianToPolar (scaleToRadius targetRadius
          (midpointC (polarToCartesian start) (polarToCartesian destination))) := by
      rw [hcases, if_pos hD]
    refine ⟨heq, ?_⟩
    rw [heq]
    exact cartesianToPolar_r_eq _ _ htr
      (scaleToRadius_norm _ _ (midpoint_norm_pos start destination targetRadius hne hD))
  · intro hD h2
    have heq : interpolatePositionOnRoute start destination targetRadius =
        cartesianToPolar (linePoint start destination
          (routeFirstForwardRoot start destination targetRadius)) := by
      rw [hcases, if_neg (not_lt.mpr hD), if_pos h2]
    have hroot : routeQuadAt start destination targetRadius
        (routeFirstForwardRoot start destination targetRadius) = 0 := by
      unfold routeFirstForwardRoot
      split_ifs with h1
      · exact (routeQuad_root_iff start destination targetRadius hD _).mpr (Or.inl rfl)
      · exact (routeQuad_root_iff start destination targetRadius hD _).mpr (Or.inr rfl)
    have hffr : 0 ≤ routeFirstForwardRoot start destination targetRadius := by
      unfold routeFirstForwardRoot
      split_ifs with h1
      · exact h1
      · exact h2
    refine ⟨heq, ?_, hroot, hffr, ?_⟩
    · rw [heq]
      refine cartesianToPolar_r_eq _ _ htr ?_
      have hnorm := linePoint_norm start destination targetRadius
        (routeFirstForwardRoot start destination targetRadius) hne
      rw [hroot] at hnorm
      simpa using hnorm
    · intro t ht htnn
      rcases (routeQuad_root_iff start destination targetRadius hD t).mp ht with rfl | rfl
      · unfold routeFirstForwardRoot
        split_ifs
        all_goals first
          | exact le_refl _
          | exact absurd htnn (by assumption)
      · unfold routeFirstForwardRoot
        split_ifs with h1
        all_goals first
          | exact routeT1_le_routeT2 start destination targetRadius
          | exact le_refl _
  · intro hD h2
    have heq : interpolatePositionOnRoute start destination targetRadius =
        cartesianToPolar (scaleToRadius targetRadius (polarToCartesian destination)) := by
      rw [hcases, if_neg (not_lt.mpr hD), if_neg (not_le.mpr h2)]
    refine ⟨heq, ?_⟩
    rw [heq]
    exact cartesianToPolar_r_eq _ _ htr
      (scaleToRadius_norm _ _ (dest_norm_pos start destination targetRadius hne hD h2))

/-- Witness for C1: the case analysis instantiated on the radial route from
r = 3 to r = 7 at angle 0 with target radius 5, hypotheses discharged
numerically. -/
theorem interpolatePositionOnRoute_spec_witness :
    (routeDisc { r := 3, theta := 0 } { r := 7, theta := 0 } 5 < 0 →
      interpolatePositionOnRoute { r := 3, theta := 0 } { r := 7, theta := 0 } 5 =
        cartesianToPolar (scaleToRadius 5
          (midpointC (polarToCartesian { r := 3, theta := 0 })
            (polarToCartesian { r := 7, theta := 0 }))) ∧
      (interpolatePositionOnRoute { r := 3, theta := 0 } { r := 7, theta := 0 } 5).r = 5) ∧
    (0 ≤ routeDisc { r := 3, theta := 0 } { r := 7, theta := 0 } 5 →
      0 ≤ routeT2 { r := 3, theta := 0 } { r := 7, theta := 0 } 5 →
      interpolatePositionOnRoute { r := 3, theta := 0 } { r := 7, theta := 0 } 5 =
        cartesianToPolar (linePoint { r := 3, theta := 0 } { r := 7, theta := 0 }
          (routeFirstForwardRoot { r := 3, theta := 0 } { r := 7, theta := 0 } 5)) ∧
      (interpolatePositionOnRoute { r := 3, theta := 0 } { r := 7, theta := 0 } 5).r = 5 ∧
      routeQuadAt { r := 3, theta := 0 } { r := 7, theta := 0 } 5
        (routeFirstForwardRoot { r := 3, theta := 0 } { r := 7, theta := 0 } 5) = 0 ∧
      0 ≤ routeFirstForwardRoot { r := 3, theta := 0 } { r := 7, theta := 0 } 5 ∧
      (∀ t, routeQuadAt { r := 3, theta := 0 } { r := 7, theta := 0 } 5 t = 0 → 0 ≤ t →
        routeFirstForwardRoot { r := 3, theta := 0 } { r := 7, theta := 0 } 5 ≤ t)) ∧
    (0 ≤ routeDisc { r := 3, theta := 0 } { r := 7, theta := 0 } 5 →
      routeT2 { r := 3, theta := 0 } { r := 7, theta := 0 } 5 < 0 →
      interpolatePositionOnRoute { r := 3, theta := 0 } { r := 7, theta := 0 } 5 =
        cartesianToPolar (scaleToRadius 5 (polarToCartesian { r := 7, theta := 0 })) ∧
      (interpolatePositionOnRoute { r := 3, theta := 0 } { r := 7, theta := 0 } 5).r = 5) :=
  interpolatePositionOnRoute_spec { r := 3, theta := 0 } { r := 7, theta := 0 } 5
    (by norm_num [polarToCartesian, degreesToRadians, CartesianCoordinate.mk.injEq])
    (by norm_num)

/-! ## Claim C5: best-yield strategy positive filter with fallback -/

set_option maxHeartbeats 1600000 in
/-- The enriched, sorted best-yield candidate list is never empty: the
refinery table always yields eight candidates with resolvable locations,
whatever the material ids. -/
theorem bestYieldSorted_ne_nil (selectedMaterial : String) (secondaryMaterial : Option String)
    (primaryCargoWeight secondaryCargoWeight : ℚ) :
    bestYieldSorted selectedMaterial secondaryMaterial
      primaryCargoWeight secondaryCargoWeight ≠ [] := by
  intro h
  have hlen : (bestYieldSorted selectedMaterial secondaryMaterial
      primaryCargoWeight secondaryCargoWeight).length = 8 := by
    show (List.insertionSort _ _).length = 8
    rw [List.length_insertionSort, List.length_map]
    show (List.insertionSort _ _).length = 8
    rw [List.length_insertionSort]
    rfl
  rw [h] at hlen
  simp at hlen

/-- C5: the best-yield strategy keeps exactly the candidates with positive
combined value impact from the sorted candidate list, falls back to the
whole sorted list when no candidate is positive, is always sorted
non-increasing by combined value impact, and is never empty. -/
theorem bestYieldResults_spec (selectedMaterial : String) (secondaryMaterial : Option String)
    (primaryCargoWeight secondaryCargoWeight : ℚ) :
    bestYieldResults selectedMaterial secondaryMaterial
        primaryCargoWeight secondaryCargoWeight ≠ [] ∧
    List.Pairwise (fun a b => b.combinedValueImpact ≤ a.combinedValueImpact)
      (bestYieldResults selectedMaterial secondaryMaterial
        primaryCargoWeight secondaryCargoWeight) ∧
    bestYieldResults selectedMaterial secondaryMaterial
        primaryCargoWeight secondaryCargoWeight =
      (if (bestYieldSorted selectedMaterial secondaryMaterial
            primaryCargoWeight secondaryCargoWeight).filter
            (fun r => decide (0 < r.combinedValueImpact)) = [] then
        bestYieldSorted selectedMaterial secondaryMaterial
          primaryCargoWeight secondaryCargoWeight
      else
        (bestYieldSorted selectedMaterial secondaryMaterial
            primaryCargoWeight secondaryCargoWeight).filter
          (fun r => decide (0 < r.combinedValueImpact))) := by
  have hsorted : List.Pairwise (fun a b => b.combinedValueImpact ≤ a.combinedValueImpact)
      (bestYieldSorted selectedMaterial secondaryMaterial
        primaryCargoWeight secondaryCargoWeight) := by
    show List.Pairwise _ (List.insertionSort _ _)
    exact List.sorted_insertionSort _ _
  have hcase : bestYieldResults selectedMaterial secondaryMaterial
      primaryCargoWeight secondaryCargoWeight =
      (if (bestYieldSorted selectedMaterial secondaryMaterial
            primaryCargoWeight secondaryCargoWeight).filter
            (fun r => decide (0 < r.combinedValueImpact)) = [] then
        bestYieldSorted selectedMaterial secondaryMaterial
          primaryCargoWeight secondaryCargoWeight
      else
        (bestYieldSorted selectedMaterial secondaryMaterial
            primaryCargoWeight secondaryCargoWeight).filter
          (fun r => decide (0 < r.combinedValueImpact))) := by
    simp only [bestYieldResults]
    by_cases hf : (bestYieldSorted selectedMaterial secondaryMaterial
        primaryCargoWeight secondaryCargoWeight).filter
        (fun r => decide (0 < r.combinedValueImpact)) = []
    · rw [hf]
      simp
    · rw [if_neg hf, if_pos (List.length_pos.mpr hf)]
  refine ⟨?_, ?_, hcase⟩
  · rw [hcase]
    by_cases hf : (bestYieldSorted selectedMaterial secondaryMaterial
        primaryCargoWeight secondaryCargoWeight).filter
        (fun r => decide (0 < r.combinedValueImpact)) = []
    · rw [if_pos hf]
      exact bestYieldSorted_ne_nil selectedMaterial secondaryMaterial
        primaryCargoWeight secondaryCargoWeight
    · rw [if_neg hf]
      exact hf
  · rw [hcase]
    by_cases hf : (bestYieldSorted selectedMaterial secondaryMaterial
        primaryCargoWeight secondaryCargoWeight).filter
        (fun r => decide (0 < r.combinedValueImpact)) = []
    · rw [if_pos hf]
      exact hsorted
    · rw [if_neg hf]
      exact hsorted.sublist (List.filter_sublist _)

/-! ## Claims C3 and C6: the optimal refinery scorer -/

set_option maxHeartbeats 1600000 in
/-- Bridging view: findOptimalRefinery is the stable descending sort by
score of the candidate list mapped through mkOptimalResult.  Both sides
are definitionally equal. -/
theorem findOptimalRefinery_eq (userPosition : PolarCoordinate) (materialId : String)
    (distanceWeight : ℝ) (secondaryMaterialId : Option String)
    (primaryCargoWeight secondaryCargoWeight : ℝ) :
    findOptimalRefinery userPosition materialId distanceWeight secondaryMaterialId
        primaryCargoWeight secondaryCargoWeight =
      List.insertionSort (fun a b => b.score ≤ a.score)
        ((optimalCandidates userPosition).map
          (mkOptimalResult userPosition materialId distanceWeight secondaryMaterialId
            primaryCargoWeight secondaryCargoWeight)) := rfl

/-- The fold underlying listMin never exceeds its accumulator. -/
theorem foldl_min_le_acc : ∀ (t : List ℝ) (a : ℝ), t.foldl min a ≤ a := by
  intro t
  induction t with
  | nil => intro a; exact le_refl a
  | cons b t ih =>
    intro a
    exact le_trans (ih (min a b)) (min_le_left a b)

/-- The fold underlying listMin bounds every list element from below. -/
theorem foldl_min_le_mem : ∀ (t : List ℝ) (a x : ℝ), x ∈ t → t.foldl min a ≤ x := by
  intro t
  induction t with
  | nil => intro a x hx; cases hx
  | cons b t ih =>
    intro a x hx
    rcases List.mem_cons.mp hx with rfl | hx
    · exact le_trans (foldl_min_le_acc t (min a x)) (min_le_right a x)
    · exact ih (min a b) x hx

/-- The fold underlying listMin lands on the accumulator or an element. -/
theorem foldl_min_mem : ∀ (t : List ℝ) (a : ℝ), t.foldl min a ∈ a :: t := by
  intro t
  induction t with
  | nil => intro a; exact List.mem_singleton.mpr rfl
  | cons b t ih =>
    intro a
    simp only [List.foldl_cons]
    have h := ih (min a b)
    rcases List.mem_cons.mp h with h | h
    · rcases min_choice a b with hc | hc
      · rw [h, hc]; exact List.mem_cons_self _ _
      · rw [h, hc]; exact List.mem_cons.mpr (Or.inr (List.mem_cons_self _ _))
    · exact List.mem_cons.mpr (Or.inr (List.mem_cons.mpr (Or.inr h)))

/-- listMin bounds every element from below. -/
theorem listMin_le {l : List ℝ} {x : ℝ} (hx : x ∈ l) : listMin l ≤ x := by
  cases l with
  | nil => cases hx
  | cons a t =>
    rcases List.mem_cons.mp hx with rfl | hx
    · exact foldl_min_le_acc t x
    · exact foldl_min_le_mem t a x hx

/-- listMin of a nonempty list is one of its elements. -/
theorem listMin_mem {l : List ℝ} (h : l ≠ []) : listMin l ∈ l := by
  cases l with
  | nil => exact absurd rfl h
  | cons a t => exact foldl_min_mem t a

/-- The fold underlying listMax is at least its accumulator. -/
theorem acc_le_foldl_max : ∀ (t : List ℝ) (a : ℝ), a ≤ t.foldl max a := by
  intro t
  induction t with
  | nil => intro a; exact le_refl a
  | cons b t ih =>
    intro a
    exact le_trans (le_max_left a b) (ih (max a b))

/-- The fold underlying listMax bounds every list element from above. -/
theorem mem_le_foldl_max : ∀ (t : List ℝ) (a x : ℝ), x ∈ t → x ≤ t.foldl max a := by
  intro t
  induction t with
  | nil => intro a x hx; cases hx
  | cons b t ih =>
    intro a x hx
    rcases List.mem_cons.mp hx with rfl | hx
    · exact le_trans (le_max_right a x) (acc_le_foldl_max t (max a x))
    · exact ih (max a b) x hx

/-- The fold underlying listMax lands on the accumulator or an element. -/
theorem foldl_max_mem : ∀ (t : List ℝ) (a : ℝ), t.foldl max a ∈ a :: t := by
  intro t
  induction t with
  | nil => intro a; exact List.mem_singleton.mpr rfl
  | cons b t ih =>
    intro a
    simp only [List.foldl_cons]
    have h := ih (max a b)
    rcases List.mem_cons.mp h with h | h
    · rcases max_choice a b with hc | hc
      · rw [h, hc]; exact List.mem_cons_self _ _
      · rw [h, hc]; exact List.mem_cons.mpr (Or.inr (List.mem_cons_self _ _))
    · exact List.mem_cons.mpr (Or.inr (List.mem_cons.mpr (Or.inr h)))

/-- listMax bounds every element from above. -/
theorem le_listMax {l : List ℝ} {x : ℝ} (hx : x ∈ l) : x ≤ listMax l := by
  cases l with
  | nil => cases hx
  | cons a t =>
    rcases List.mem_cons.mp hx with rfl | hx
    · exact acc_le_foldl_max t x
    · exact mem_le_foldl_max t a x hx

/-- listMax of a nonempty list is one of its elements. -/
theorem listMax_mem {l : List ℝ} (h : l ≠ []) : listMax l ∈ l := by
  cases l with
  | nil => exact absurd rfl h
  | cons a t => exact foldl_max_mem t a

/-- listMin is invariant under permutation. -/
theorem listMin_perm {l₁ l₂ : List ℝ} (h : l₁.Perm l₂) : listMin l₁ = listMin l₂ := by
  cases l₁ with
  | nil =>
    have : l₂ = [] := h.symm.eq_nil
    rw [this]
  | cons a t =>
    have h2 : l₂ ≠ [] := by
      intro hn
      rw [hn] at h
      exact absurd h.eq_nil (by simp)
    have h1 : (a :: t : List ℝ) ≠ [] := by simp
    apply le_antisymm
    · exact listMin_le (h.symm.subset (listMin_mem h2))
    · exact listMin_le (h.subset (listMin_mem h1))

/-- listMax is invariant under permutation. -/
theorem listMax_perm {l₁ l₂ : List ℝ} (h : l₁.Perm l₂) : listMax l₁ = listMax l₂ := by
  cases l₁ with
  | nil =>
    have : l₂ = [] := h.symm.eq_nil
    rw [this]
  | cons a t =>
    have h2 : l₂ ≠ [] := by
      intro hn
      rw [hn] at h
      exact absurd h.eq_nil (by simp)
    have h1 : (a :: t : List ℝ) ≠ [] := by simp
    apply le_antisymm
    · exact le_listMax (h.subset (listMax_mem h1))
    · exact le_listMax (h.symm.subset (listMax_mem h2))

set_option maxHeartbeats 1600000 in
/-- The candidate list of findOptimalRefinery always has the eight
refineries whose location and coordinates resolve, for every user
position. -/
theorem optimalCandidates_length (userPosition : PolarCoordinate) :
    (optimalCandidates userPosition).length = 8 := rfl

set_option maxHeartbeats 1600000 in
/-- C3: every result entry of findOptimalRefinery, called with the default
cargo mix 0.30/0.70, is scored as normalizedValue times (1 minus
distanceWeight) plus the absolute-threshold distance score times
distanceWeight, where normalizedValue is the combined value impact
normalized over the candidate set (range treated as 1 when the maximum
equals the minimum) and always lies in the closed interval from 0 to 1,
the combined value impact weighs the primary and secondary impacts by
0.30/0.70 when a secondary material is present and by 1.0/0 otherwise,
and the returned list is sorted non-increasing by score. -/
theorem findOptimalRefinery_score_rule (userPosition : PolarCoordinate)
    (materialId : String) (distanceWeight : ℝ) (secondaryMaterialId : Option String) :
    List.Pairwise (fun a b => b.score ≤ a.score)
      (findOptimalRefinery userPosition materialId distanceWeight secondaryMaterialId
        (3 / 10) (7 / 10)) ∧
    (findOptimalRefinery userPosition materialId distanceWeight secondaryMaterialId
        (3 / 10) (7 / 10)).Forall fun e =>
      e.combinedValueImpact =
        e.primaryValueImpact * (if secondaryMaterialId.isSome then (3 : ℝ) / 10 else 1) +
          e.secondaryValueImpact *
            (if secondaryMaterialId.isSome then (7 : ℝ) / 10 else 0) ∧
      e.score =
        (e.combinedValueImpact - listMin ((findOptimalRefinery userPosition materialId distanceWeight secondaryMaterialId
        (3 / 10) (7 / 10)).map
          OptimalResult.combinedValueImpact)) /
            (if listMax ((findOptimalRefinery userPosition materialId distanceWeight secondaryMaterialId
        (3 / 10) (7 / 10)).map
          OptimalResult.combinedValueImpact) = listMin ((findOptimalRefinery userPosition materialId distanceWeight secondaryMaterialId
        (3 / 10) (7 / 10)).map
          OptimalResult.combinedValueImpact) then 1
             else listMax ((findOptimalRefinery userPosition materialId distanceWeight secondaryMaterialId
        (3 / 10) (7 / 10)).map
          OptimalResult.combinedValueImpact) - listMin ((findOptimalRefinery userPosition materialId distanceWeight secondaryMaterialId
        (3 / 10) (7 / 10)).map
          OptimalResult.combinedValueImpact)) * (1 - distanceWeight) +
          (if e.distanceGm < 15 then (1 : ℝ)
           else if e.distanceGm < 30 then 0.85
           else if e.distanceGm < 45 then 0.6
           else if e.distanceGm < 60 then 0.35
           else 0.15) * distanceWeight ∧
      0 ≤ (e.combinedValueImpact - listMin ((findOptimalRefinery userPosition materialId distanceWeight secondaryMaterialId
        (3 / 10) (7 / 10)).map
          OptimalResult.combinedValueImpact)) /
          (if listMax ((findOptimalRefinery userPosition materialId distanceWeight secondaryMaterialId
        (3 / 10) (7 / 10)).map
          OptimalResult.combinedValueImpact) = listMin ((findOptimalRefinery userPosition materialId distanceWeight secondaryMaterialId
        (3 / 10) (7 / 10)).map
          OptimalResult.combinedValueImpact) then 1
           else listMax ((findOptimalRefinery userPosition materialId distanceWeight secondaryMaterialId
        (3 / 10) (7 / 10)).map
          OptimalResult.combinedValueImpact) - listMin ((findOptimalRefinery userPosition materialId distanceWeight secondaryMaterialId
        (3 / 10) (7 / 10)).map
          OptimalResult.combinedValueImpact)) ∧
      (e.combinedValueImpact - listMin ((findOptimalRefinery userPosition materialId distanceWeight secondaryMaterialId
        (3 / 10) (7 / 10)).map
          OptimalResult.combinedValueImpact)) /
          (if listMax ((findOptimalRefinery userPosition materialId distanceWeight secondaryMaterialId
        (3 / 10) (7 / 10)).map
          OptimalResult.combinedValueImpact) = listMin ((findOptimalRefinery userPosition materialId distanceWeight secondaryMaterialId
        (3 / 10) (7 / 10)).map
          OptimalResult.combinedValueImpact) then 1
           else listMax ((findOptimalRefinery userPosition materialId distanceWeight secondaryMaterialId
        (3 / 10) (7 / 10)).map
          OptimalResult.combinedValueImpact) - listMin ((findOptimalRefinery userPosition materialId distanceWeight secondaryMaterialId
        (3 / 10) (7 / 10)).map
          OptimalResult.combinedValueImpact)) ≤ 1 := by
  have hEq := findOptimalRefinery_eq userPosition materialId distanceWeight
    secondaryMaterialId (3 / 10) (7 / 10)
  have hperm : (findOptimalRefinery userPosition materialId distanceWeight secondaryMaterialId
        (3 / 10) (7 / 10)).Perm
      ((optimalCandidates userPosition).map
        (mkOptimalResult userPosition materialId distanceWeight secondaryMaterialId
          (3 / 10) (7 / 10))) := by
    rw [hEq]
    exact List.perm_insertionSort _ _
  have hmapEq : ((optimalCandidates userPosition).map
      (mkOptimalResult userPosition materialId distanceWeight secondaryMaterialId
        (3 / 10) (7 / 10))).map OptimalResult.combinedValueImpact =
      optimalImpacts userPosition materialId secondaryMaterialId (3 / 10) (7 / 10) := by
    rw [List.map_map]
    rfl
  have hmapPerm : ((findOptimalRefinery userPosition materialId distanceWeight secondaryMaterialId
        (3 / 10) (7 / 10)).map
          OptimalResult.combinedValueImpact).Perm
      (optimalImpacts userPosition materialId secondaryMaterialId (3 / 10) (7 / 10)) := by
    have h1 := hperm.map OptimalResult.combinedValueImpact
    rw [hmapEq] at h1
    exact h1
  have hmin : listMin ((findOptimalRefinery userPosition materialId distanceWeight secondaryMaterialId
        (3 / 10) (7 / 10)).map
          OptimalResult.combinedValueImpact) =
      listMin (optimalImpacts userPosition materialId secondaryMaterialId
        (3 / 10) (7 / 10)) := listMin_perm hmapPerm
  have hmax : listMax ((findOptimalRefinery userPosition materialId distanceWeight secondaryMaterialId
        (3 / 10) (7 / 10)).map
          OptimalResult.combinedValueImpact) =
      listMax (optimalImpacts userPosition materialId secondaryMaterialId
        (3 / 10) (7 / 10)) := listMax_perm hmapPerm
  constructor
  · rw [hEq]
    exact List.sorted_insertionSort _ _
  · rw [List.forall_iff_forall_mem]
    intro e he
    rw [hEq, List.mem_insertionSort] at he
    rcases List.mem_map.mp he with ⟨c, hc, rfl⟩
    have himem : optimalImpact materialId secondaryMaterialId (3 / 10) (7 / 10)
        c.refinery ∈
        optimalImpacts userPosition materialId secondaryMaterialId (3 / 10) (7 / 10) :=
      List.mem_map.mpr ⟨c, hc, rfl⟩
    have hminle := listMin_le himem
    have hlemax := le_listMax himem
    refine ⟨?_, ?_, ?_, ?_⟩
    · show optimalImpact materialId secondaryMaterialId (3 / 10) (7 / 10) c.refinery = _
      unfold optimalImpact
      rfl
    · show optimalScore userPosition materialId distanceWeight secondaryMaterialId
        (3 / 10) (7 / 10) c = _
      rw [hmin, hmax]
      unfold optimalScore optimalNormalizedValue optimalValueRange getDistanceScore
      by_cases hifc : listMax (optimalImpacts userPosition materialId secondaryMaterialId
          (3 / 10) (7 / 10)) -
          listMin (optimalImpacts userPosition materialId secondaryMaterialId
            (3 / 10) (7 / 10)) = 0
      · rw [if_pos hifc, if_pos (sub_eq_zero.mp hifc)]
        simp only [mkOptimalResult]
        norm_num
      · rw [if_neg hifc, if_neg fun h => hifc (sub_eq_zero.mpr h)]
        simp only [mkOptimalResult]
        norm_num
    · rw [hmin, hmax]
      by_cases hifc : listMax (optimalImpacts userPosition materialId secondaryMaterialId
          (3 / 10) (7 / 10)) =
          listMin (optimalImpacts userPosition materialId secondaryMaterialId
            (3 / 10) (7 / 10))
      · rw [if_pos hifc]
        show 0 ≤ (optimalImpact materialId secondaryMaterialId (3 / 10) (7 / 10)
          c.refinery - _) / 1
        rw [div_one]
        linarith
      · rw [if_neg hifc]
        have hlt : listMin (optimalImpacts userPosition materialId secondaryMaterialId
            (3 / 10) (7 / 10)) <
            listMax (optimalImpacts userPosition materialId secondaryMaterialId
              (3 / 10) (7 / 10)) :=
          lt_of_le_of_ne (le_trans hminle hlemax) (Ne.symm hifc)
        refine div_nonneg ?_ (by linarith)
        show (0 : ℝ) ≤ optimalImpact materialId secondaryMaterialId (3 / 10) (7 / 10)
          c.refinery - _
        linarith
    · rw [hmin, hmax]
      by_cases hifc : listMax (optimalImpacts userPosition materialId secondaryMaterialId
          (3 / 10) (7 / 10)) =
          listMin (optimalImpacts userPosition materialId secondaryMaterialId
            (3 / 10) (7 / 10))
      · rw [if_pos hifc]
        show (optimalImpact materialId secondaryMaterialId (3 / 10) (7 / 10)
          c.refinery - _) / 1 ≤ 1
        rw [div_one]
        have : optimalImpact materialId secondaryMaterialId (3 / 10) (7 / 10) c.refinery =
            listMin (optimalImpacts userPosition materialId secondaryMaterialId
              (3 / 10) (7 / 10)) := by
          rw [hifc] at hlemax
          linarith
        linarith
      · rw [if_neg hifc]
        have hlt : listMin (optimalImpacts userPosition materialId secondaryMaterialId
            (3 / 10) (7 / 10)) <
            listMax (optimalImpacts userPosition materialId secondaryMaterialId
              (3 / 10) (7 / 10)) :=
          lt_of_le_of_ne (le_trans hminle hlemax) (Ne.symm hifc)
        rw [div_le_one (by linarith)]
        show optimalImpact materialId secondaryMaterialId (3 / 10) (7 / 10)
          c.refinery - _ ≤ _
        linarith

/-- The distance step score never increases with distance. -/
theorem getDistanceScore_anti {x y : ℝ} (h : x ≤ y) :
    getDistanceScore y ≤ getDistanceScore x := by
  unfold getDistanceScore
  split_ifs <;> norm_num <;> linarith

/-- firstMaxBy is none exactly on the empty list. -/
theorem firstMaxBy_eq_none {α : Type} (g : α → ℝ) :
    ∀ l : List α, firstMaxBy g l = none ↔ l = [] := by
  intro l
  cases l with
  | nil => simp [firstMaxBy]
  | cons a t =>
    simp only [firstMaxBy]
    cases hm : firstMaxBy g t with
    | none => simp
    | some m =>
      simp only
      constructor
      · intro h
        by_cases hg : g m ≤ g a <;> simp [hg] at h
      · intro h
        cases h

/-- A nonempty list has a first maximum. -/
theorem firstMaxBy_isSome {α : Type} (g : α → ℝ) {l : List α} (h : l ≠ []) :
    ∃ m, firstMaxBy g l = some m := by
  cases hm : firstMaxBy g l
  · exact absurd ((firstMaxBy_eq_none g l).mp hm) h
  · exact ⟨_, rfl⟩

/-- The head of the stable descending insertion sort by a key is the first
maximum of the list under that key. -/
theorem head?_insertionSort_firstMax {α : Type} (g : α → ℝ) (l : List α) :
    (List.insertionSort (fun a b => g b ≤ g a) l).head? = firstMaxBy g l := by
  induction l with
  | nil => rfl
  | cons a t ih =>
    show (List.orderedInsert _ a (List.insertionSort _ t)).head? = _
    cases hs : List.insertionSort (fun a b => g b ≤ g a) t with
    | nil =>
      rw [hs] at ih
      simp only [List.orderedInsert]
      show some a = firstMaxBy g (a :: t)
      simp only [firstMaxBy]
      rw [← ih]
      rfl
    | cons b t2 =>
      rw [hs] at ih
      simp only [List.orderedInsert]
      show (if g b ≤ g a then (a :: b :: t2 : List α) else
        b :: List.orderedInsert _ a t2).head? = firstMaxBy g (a :: t)
      simp only [firstMaxBy]
      rw [← ih]
      simp only [List.head?_cons]
      by_cases hg : g b ≤ g a
      · rw [if_pos hg, if_pos hg]
        rfl
      · rw [if_neg hg, if_neg hg]
        rfl

/-- firstMaxBy commutes with mapping when the key factors through the
map. -/
theorem firstMaxBy_map {α β : Type} (g : β → ℝ) (f : α → β) :
    ∀ l : List α, firstMaxBy g (l.map f) = (firstMaxBy (fun x => g (f x)) l).map f := by
  intro l
  induction l with
  | nil => rfl
  | cons a t ih =>
    simp only [List.map_cons, firstMaxBy, ih]
    cases hm : firstMaxBy (fun x => g (f x)) t with
    | none => rfl
    | some m =>
      by_cases hg : g (f m) ≤ g (f a)
      · simp [hg]
      · simp [hg]

/-- Index characterization of firstMaxBy: it returns an element whose key
is maximal and before which every key is strictly smaller. -/
theorem firstMaxBy_spec {α : Type} (g : α → ℝ) :
    ∀ (l : List α) (a : α), firstMaxBy g l = some a →
      ∃ i, l.get? i = some a ∧ (∀ j x, l.get? j = some x → g x ≤ g a) ∧
        (∀ j x, j < i → l.get? j = some x → g x < g a) := by
  intro l
  induction l with
  | nil => intro a h; cases h
  | cons b t ih =>
    intro a h
    simp only [firstMaxBy] at h
    cases hm : firstMaxBy g t with
    | none =>
      rw [hm] at h
      have ht : t = [] := (firstMaxBy_eq_none g t).mp hm
      simp only at h
      have hab : b = a := by injection h
      subst hab
      subst ht
      refine ⟨0, rfl, ?_, ?_⟩
      · intro j x hx
        cases j with
        | zero =>
          have : b = x := by injection hx
          rw [this]
        | succ n => cases hx
      · intro j x hj hx
        cases hj
    | some m =>
      rw [hm] at h
      simp only at h
      rcases ih m hm with ⟨im, hget, hbound, hstrict⟩
      by_cases hg : g m ≤ g b
      · rw [if_pos hg] at h
        have hab : b = a := by injection h
        subst hab
        refine ⟨0, rfl, ?_, ?_⟩
        · intro j x hx
          cases j with
          | zero =>
            have : b = x := by injection hx
            rw [this]
          | succ n =>
            exact le_trans (hbound n x hx) hg
        · intro j x hj hx
          cases hj
      · rw [if_neg hg] at h
        have ham : m = a := by injection h
        subst ham
        have hgb : g b < g m := not_le.mp hg
        refine ⟨im + 1, hget, ?_, ?_⟩
        · intro j x hx
          cases j with
          | zero =>
            have : b = x := by injection hx
            rw [← this]
            exact hgb.le
          | succ n => exact hbound n x hx
        · intro j x hj hx
          cases j with
          | zero =>
            have : b = x := by injection hx
            rw [← this]
            exact hgb
          | succ n => exact hstrict n x (Nat.lt_of_succ_lt_succ hj) hx

/-- Exchange argument: raising the distance weight from 0.1 to 0.9 moves
the first maximum of the blended score to a candidate whose distance score
is at least as good, hence whose distance is no larger. -/
theorem firstMaxBy_exchange {α : Type} (l : List α) (v d dist : α → ℝ)
    (hmono : ∀ x y : α, dist x ≤ dist y → d y ≤ d x)
    {a b : α}
    (ha : firstMaxBy (fun c => v c * (1 - (1 / 10 : ℝ)) + d c * (1 / 10)) l = some a)
    (hb : firstMaxBy (fun c => v c * (1 - (9 / 10 : ℝ)) + d c * (9 / 10)) l = some b) :
    dist b ≤ dist a := by
  obtain ⟨i, hgi, hbi, hsi⟩ := firstMaxBy_spec _ l a ha
  obtain ⟨j, hgj, hbj, hsj⟩ := firstMaxBy_spec _ l b hb
  have h1 : v b * (1 - (1 / 10 : ℝ)) + d b * (1 / 10) ≤
      v a * (1 - (1 / 10 : ℝ)) + d a * (1 / 10) := hbi j b hgj
  have h2 : v a * (1 - (9 / 10 : ℝ)) + d a * (9 / 10) ≤
      v b * (1 - (9 / 10 : ℝ)) + d b * (9 / 10) := hbj i a hgi
  have hd : d a ≤ d b := by linarith
  rcases lt_or_eq_of_le hd with hlt | heq
  · by_contra hcon
    push_neg at hcon
    exact absurd (hmono a b hcon.le) (not_le.mpr hlt)
  · have hv1 : v b ≤ v a := by linarith
    have hv2 : v a ≤ v b := by linarith
    have hij : i = j := by
      by_contra hne
      rcases Nat.lt_or_ge i j with hlt2 | hge
      · have := hsj i a hlt2 hgi
        linarith
      · have hlt2 : j < i := lt_of_le_of_ne hge fun h => hne h.symm
        have := hsi j b hlt2 hgj
        linarith
    rw [hij, hgj] at hgi
    have hab : b = a := by injection hgi
    rw [hab]

/-- C6: for every user position and material pair, raising the
distanceWeight argument of findOptimalRefinery from 0.1 to 0.9 never
increases the distance of the top-ranked result: both calls have a
top-ranked entry and the second one is at most as far. -/
theorem findOptimalRefinery_distance_mono (userPosition : PolarCoordinate)
    (materialId : String) (secondaryMaterialId : Option String) :
    ∃ a b : OptimalResult,
      (findOptimalRefinery userPosition materialId (1 / 10) secondaryMaterialId
          (3 / 10) (7 / 10)).head? = some a ∧
      (findOptimalRefinery userPosition materialId (9 / 10) secondaryMaterialId
          (3 / 10) (7 / 10)).head? = some b ∧
      b.distanceGm ≤ a.distanceGm := by
  have hne : optimalCandidates userPosition ≠ [] := by
    intro h
    have hl := optimalCandidates_length userPosition
    rw [h] at hl
    simp at hl
  obtain ⟨ca, hca⟩ := firstMaxBy_isSome
    (fun c => optimalScore userPosition materialId (1 / 10) secondaryMaterialId
      (3 / 10) (7 / 10) c) hne
  obtain ⟨cb, hcb⟩ := firstMaxBy_isSome
    (fun c => optimalScore userPosition materialId (9 / 10) secondaryMaterialId
      (3 / 10) (7 / 10) c) hne
  refine ⟨mkOptimalResult userPosition materialId (1 / 10) secondaryMaterialId
      (3 / 10) (7 / 10) ca,
    mkOptimalResult userPosition materialId (9 / 10) secondaryMaterialId
      (3 / 10) (7 / 10) cb, ?_, ?_, ?_⟩
  · rw [findOptimalRefinery_eq, head?_insertionSort_firstMax OptimalResult.score,
      firstMaxBy_map]
    have h1 : firstMaxBy (fun x => OptimalResult.score
        (mkOptimalResult userPosition materialId (1 / 10) secondaryMaterialId
          (3 / 10) (7 / 10) x)) (optimalCandidates userPosition) = some ca := hca
    rw [h1]
    rfl
  · rw [findOptimalRefinery_eq, head?_insertionSort_firstMax OptimalResult.score,
      firstMaxBy_map]
    have h1 : firstMaxBy (fun x => OptimalResult.score
        (mkOptimalResult userPosition materialId (9 / 10) secondaryMaterialId
          (3 / 10) (7 / 10) x)) (optimalCandidates userPosition) = some cb := hcb
    rw [h1]
    rfl
  · have hmono : ∀ x y : RawCandidate, (fun c : RawCandidate => c.distanceGm) x ≤
        (fun c : RawCandidate => c.distanceGm) y →
        (fun c : RawCandidate => getDistanceScore c.distanceGm) y ≤
        (fun c : RawCandidate => getDistanceScore c.distanceGm) x :=
      fun x y h => getDistanceScore_anti h
    have hres := firstMaxBy_exchange (optimalCandidates userPosition)
      (fun c => optimalNormalizedValue userPosition materialId secondaryMaterialId
        (3 / 10) (7 / 10) c.refinery)
      (fun c => getDistanceScore c.distanceGm)
      (fun c => c.distanceGm) hmono hca hcb
    exact hres

/-! ## Claim C10: permutation invariance of calculateExitWidths -/

/-- The ascending sort by band id is determined by the multiset of exits
when the band ids are pairwise distinct: permuted inputs sort to the same
list. -/
theorem exitsSortedById_perm_eq (l₁ l₂ : List BandExit)
    (hperm : l₁.Perm l₂)
    (hnodup : (l₁.map BandExit.bandId).Nodup) :
    exitsSortedById l₁ = exitsSortedById l₂ := by
  have hp₁ : (exitsSortedById l₁).Perm l₁ := List.perm_insertionSort _ _
  have hp₂ : (exitsSortedById l₂).Perm l₂ := List.perm_insertionSort _ _
  have hptot : (exitsSortedById l₁).Perm (exitsSortedById l₂) :=
    hp₁.trans (hperm.trans hp₂.symm)
  have hn₁ : ((exitsSortedById l₁).map BandExit.bandId).Nodup :=
    (List.Perm.nodup_iff (hp₁.map BandExit.bandId)).mpr hnodup
  have hn₂ : ((exitsSortedById l₂).map BandExit.bandId).Nodup :=
    (List.Perm.nodup_iff (hptot.map BandExit.bandId)).mp hn₁
  have hlt : ∀ l : List BandExit,
      (l.map BandExit.bandId).Nodup →
      List.Pairwise (fun a b : BandExit => a.bandId ≤ b.bandId) l →
      List.Pairwise (fun a b : BandExit => a.bandId < b.bandId) l := by
    intro l hn hs
    have hne : List.Pairwise (fun a b : BandExit => a.bandId ≠ b.bandId) l :=
      List.pairwise_map.mp hn
    exact (hs.and hne).imp fun h => lt_of_le_of_ne h.1 h.2
  have hs₁ : List.Pairwise (fun a b : BandExit => a.bandId ≤ b.bandId)
      (exitsSortedById l₁) := List.sorted_insertionSort _ _
  have hs₂ : List.Pairwise (fun a b : BandExit => a.bandId ≤ b.bandId)
      (exitsSortedById l₂) := List.sorted_insertionSort _ _
  exact List.eq_of_perm_of_sorted hptot (hlt _ hn₁ hs₁) (hlt _ hn₂ hs₂)

/-- C10 (corrected): when the band ids of the input are pairwise distinct,
calculateExitWidths gives the same output on every permutation of the
input, with one annotated record per input record, ordered ascending by
band id.  (With duplicate ids the stable sort preserves the input order of
equal ids, so the output depends on the order; see the counterexample.) -/
theorem calculateExitWidths_perm_invariant (l₁ l₂ : List BandExit)
    (hperm : l₁.Perm l₂)
    (hnodup : (l₁.map BandExit.bandId).Nodup) :
    calculateExitWidths l₁ = calculateExitWidths l₂ ∧
    (calculateExitWidths l₁).length = l₁.length ∧
    List.Pairwise (fun a b => a.bandId ≤ b.bandId) (calculateExitWidths l₁) := by
  have hs := exitsSortedById_perm_eq l₁ l₂ hperm hnodup
  refine ⟨?_, ?_, ?_⟩
  · simp only [calculateExitWidths, hs]
  · simp [calculateExitWidths, List.enum_length, exitsSortedById,
      List.length_insertionSort]
  · have hsorted : List.Sorted (fun a b : BandExit => a.bandId ≤ b.bandId)
        (exitsSortedById l₁) :=
      List.sorted_insertionSort _ l₁
    have hs2 : List.Pairwise
        (fun p q : ℕ × BandExit => p.2.bandId ≤ q.2.bandId)
        (exitsSortedById l₁).enum := by
      have h := hsorted
      rw [← List.enum_map_snd (exitsSortedById l₁)] at h
      exact (List.pairwise_map.mp h).imp fun h => h
    simp only [calculateExitWidths]
    exact (List.pairwise_map.mpr (hs2.imp fun h => h))

/-- Witness for C10: the invariance theorem applied to the two orders of a
concrete pair of exits on distinct bands, the permutation given by a swap
and the distinctness of the ids by evaluation. -/
theorem calculateExitWidths_perm_invariant_witness :
    calculateExitWidths [wExit₁, wExit₂] = calculateExitWidths [wExit₂, wExit₁] ∧
    (calculateExitWidths [wExit₁, wExit₂]).length = [wExit₁, wExit₂].length ∧
    List.Pairwise (fun a b => a.bandId ≤ b.bandId)
      (calculateExitWidths [wExit₁, wExit₂]) :=
  calculateExitWidths_perm_invariant [wExit₁, wExit₂] [wExit₂, wExit₁]
    (List.Perm.swap wExit₂ wExit₁ []) (by decide)

/-- Counterexample for C10 as frozen: two exits on the same band id, listed
in the two orders, are a permutation of each other, yet calculateExitWidths
returns different outputs: the stable sort keeps the input order of equal
ids, so the head record carries distanceToDestination 100 in one order and
200 in the other. -/
theorem calculateExitWidths_not_perm_invariant :
    List.Perm [dupExit₁, dupExit₂] [dupExit₂, dupExit₁] ∧
    calculateExitWidths [dupExit₁, dupExit₂] ≠
      calculateExitWidths [dupExit₂, dupExit₁] := by
  refine ⟨List.Perm.swap dupExit₂ dupExit₁ [], ?_⟩
  intro h
  have h2 := congrArg
    (fun l => l.head?.map fun e : BandExitWithWidth => e.distanceToDestination) h
  have hL : (calculateExitWidths [dupExit₁, dupExit₂]).head?.map
      (fun e : BandExitWithWidth => e.distanceToDestination) = some (100 : ℚ) := rfl
  have hR : (calculateExitWidths [dupExit₂, dupExit₁]).head?.map
      (fun e : BandExitWithWidth => e.distanceToDestination) = some (200 : ℚ) := rfl
  simp only at h2
  rw [hL, hR] at h2
  have h3 : (100 : ℚ) = 200 := Option.some_injective ℚ h2
  norm_num at h3

end BandHopper

